import Mathlib

/-!
Verification of the rock-photo analyzer pipelines (`quick_analyzer.py` and
`rock_analyzer.py`) against their natural-language specification.

The development shallowly embeds the parts of both scripts that the claims
touch: the JSON-like result values the scripts manipulate (Python dicts,
lists, strings and numbers, with Python truthiness), the prompt builders with
their exact template texts, the post-processing the analysis invokers apply to
a parsed response, the compare-mode orchestration of both entry points, the
reporters (`display_results` and `display_geological_results`) with Python's
raising behaviour for ill-typed field accesses, and — modelled from the spec,
since the `json` library is external to the repository — a 2-space-indented
JSON serializer and a JSON parser used for the persistence round-trip claims.
-/

set_option maxHeartbeats 4000000
set_option maxRecDepth 20000

namespace RockPhoto

/-- JSON-like values, as produced by `json.loads` on the model's response and
manipulated by the scripts: Python dicts become ordered association lists
(`obj`), lists become `arr`, strings `str`, and numbers `num` (restricted to
integers in this model). -/
inductive Value where
  | str (s : String)
  | num (n : Int)
  | arr (elems : List Value)
  | obj (fields : List (String × Value))

/-- Python truthiness (`bool(v)`) for the embedded values: empty strings,
zero, empty lists and empty dicts are falsy. -/
def Value.pyTruthy : Value → Bool
  | .str s => !s.isEmpty
  | .num n => n != 0
  | .arr es => !es.isEmpty
  | .obj fs => !fs.isEmpty

/-- Truthiness of an optional result: Python `None` is falsy. -/
def pyTruthyOpt : Option Value → Bool
  | none => false
  | some v => v.pyTruthy

/-- Truthiness of an optional string argument (e.g. `location`): `None` and
`""` are falsy. -/
def pyTruthyStr : Option String → Bool
  | none => false
  | some s => !s.isEmpty

/-- Dict lookup (`d.get(k)` / `k in d`): first binding wins; the embedding of
`setField` keeps keys unique, matching Python dict semantics. -/
def lookupField : List (String × Value) → String → Option Value
  | [], _ => none
  | (k, v) :: rest, key => if k = key then some v else lookupField rest key

/-- Dict assignment `d[key] = v`: replaces an existing binding in place,
otherwise appends at the end (Python insertion order). -/
def setField : List (String × Value) → String → Value → List (String × Value)
  | [], key, v => [(key, v)]
  | (k, w) :: rest, key, v =>
      if k = key then (k, v) :: rest else (k, w) :: setField rest key v

/-- `pat` is a prefix of `s` (on character lists). -/
def charsPrefix : List Char → List Char → Bool
  | [], _ => true
  | _ :: _, [] => false
  | c :: cs, d :: ds => c == d && charsPrefix cs ds

/-- `pat` occurs as a contiguous sublist of `s`. -/
def charsOccurs (pat : List Char) : List Char → Bool
  | [] => charsPrefix pat []
  | s@(_ :: rest) => charsPrefix pat s || charsOccurs pat rest

/-- Number of positions of `s` at which `pat` occurs (occurrence count,
overlaps included). -/
def charsCount (pat : List Char) : List Char → Nat
  | [] => if charsPrefix pat [] then 1 else 0
  | s@(_ :: rest) => (if charsPrefix pat s then 1 else 0) + charsCount pat rest

/-- Substring test on strings (Python `pat in s`). -/
def occursStr (pat s : String) : Bool := charsOccurs pat.data s.data

/-- Occurrence count of `pat` in `s`. -/
def countStr (pat s : String) : Nat := charsCount pat.data s.data

/-- `pat` occurs in `s` (propositional form): `s` splits around `pat`. -/
def StrContains (pat s : String) : Prop := ∃ pre post, s = pre ++ pat ++ post

/-- Segment 1 of the quick variant base prompt. -/
def quickBase1 : String :=
"
    You are a field geologist performing a rapid rock assessment. While this is a quick analysis,
    maintain scientific rigor and systematic observation.

    ═════════════════════════════════" ++ "══════════════════════════════════
    QUICK ANALYSIS FRAMEWORK
    ═════════════════════════════════" ++ "══════════════════════════════════

    For each rock, follow this rapid assessment process:
    1. Observe: Note key visual features (texture, color, structure)
    2. Classify: Determine primary rock type and characteristics
    3. Assess: Evaluate confidence based on feature clarity

    ═════════════════════════════════" ++ "══════════════════════════════════
    CLASSIFICATION CATEGORIES
    ═════════════════════════════════" ++ "══════════════════════════════════

    ┌─ PRIMARY ROCK TYPE ───────────────────────────────────────────────
    │ primary_type - Select ONE:
    │   • \"sedimentary\" - Layered, grainy, or massive (sandstone, limestone, shale)
    │   • \"igneous\" - Crystalline or glassy (granite, basalt, obsidian)
    │   • \"metamorphic\" - Foliated or recrystallized (schist, marble, slate)
    │   • \"unknown\" - Cannot determine from visible features
    │   • \"other\" - Unconsolidated or mixed materials
    │
    │ Quick identification tips:
    │ - Sedimentary: Look for layers, grains, fossils, rounded clasts
    │ - Igneous: Interlocking crystals (slow cooling) or fine/glassy (fast cooling)
    │ - Metamorphic: Foliation, alignment, recrystallized texture
"

/-- Segment 2 of the quick variant base prompt. -/
def quickBase2 : String :=
"    └────────────────────────────────────────────────────────────────────

    ┌─ SIZE CATEGORY ───────────────────────────────────────────────────
    │ size_category - Estimate largest dimension:
    │   • \"tiny\" - <5cm (hand sample)
    │   • \"small\" - 5-20cm (grapefruit to melon)
    │   • \"medium\" - 20-50cm (basketball to large pumpkin)
    │   • \"large\" - 50-100cm (beach ball to small boulder)
    │   • \"boulder\" - 100-200cm (large boulder)
    │   • \"massive\" - >200cm (very large or outcrop)
    └────────────────────────────────────────────────────────────────────

    ┌─ WEATHERING STATE ────────────────────────────────────────────────
    │ weathering_state - Degree of surface alteration:
    │   • \"fresh\" - Clean, unaltered surfaces
    │   • \"slightly_weathered\" - Minor discoloration or surface changes
    │   • \"moderately_weathered\" - Visible weathering, structure intact
    │   • \"heavily_weathered\" - Significant alteration, weakened structure
    │   • \"extremely_weathered\" - Heavily altered, texture obscured
    └────────────────────────────────────────────────────────────────────

    ┌─ CONFIDENCE CALIBRATION ──────────────────────────────────────────
    │ confidence_level & confidence_value:
    │   • \"very_high\" (0.8-1.0) - Diagnostic features clearly visible
    │   • \"high\" (0.6-0.8) - Good features, minor uncertainty
    │   • \"medium\" (0.4-0.6) - Reasonable guess, some ambiguity
    │   • \"low\" (0.2-0.4) - Educated guess, limited clarity
"

/-- Segment 3 of the quick variant base prompt. -/
def quickBase3 : String :=
"    │   • \"very_low\" (0.0-0.2) - Highly uncertain identification
    │
    │ Be honest about uncertainty. Consider image quality, angle, and coverage.
    └────────────────────────────────────────────────────────────────────

    ┌─ OTHER FIELDS ────────────────────────────────────────────────────
    │ • position: "

/-- Segment 4 of the quick variant base prompt. -/
def quickBase4 : String :=
" in image frame
    │ • estimated_size_cm: Best estimate of largest dimension in cm
    │
    │ DESCRIPTIVE FIELDS (detailed observations):
    │ • specific_rock_type: As specific as possible (e.g., \"limestone\", \"granite\")
    │ • color_description: Detailed color observations
    │ • texture_details: Surface and internal texture
    │ • mineral_composition: Any visible minerals
    │ • structural_features: Bedding, foliation, joints, veins
    │ • surface_features: Lichen, weathering patterns, coatings
    │ • shape_description: Overall morphology and angularity
    │ • geological_notes: Expert observations linking features to interpretation
    └────────────────────────────────────────────────────────────────────

    ═════════════════════════════════" ++ "══════════════════════════════════
    SUMMARY REQUIREMENTS
    ═════════════════════════════════" ++ "══════════════════════════════════

    • dominant_rock_type: Must be \"sedimentary\", \"igneous\", \"metamorphic\", \"unknown\", or \"other\"
    • Provide geological interpretation of the overall setting
    • Note formation processes and potential geological context
    "

/-- The quick variant base prompt (`base_prompt` in `analyze_rocks`), assembled
from consecutive segments; the single occurrence of `"Location"` in its text is
kept as its own segment. Concatenating the segments yields the source literal
verbatim. -/
def quickBasePrompt : String :=
  quickBase1 ++ (quickBase2 ++ (quickBase3 ++ ("Location" ++ quickBase4)))

/-- Text between the base prompt and the interpolated location in the quick with-location prompt. -/
def quickLocPre : String :=
"

    ═════════════════════════════════" ++ "══════════════════════════════════
    LOCATION CONTEXT PROVIDED
    ═════════════════════════════════" ++ "══════════════════════════════════

    Location: "

/-- Text following the interpolated location in the quick with-location prompt. -/
def quickLocPost : String :=
"

    Use location knowledge to:
    • Consider typical regional rock types
    • Inform geological setting interpretation
    • Guide formation identification

    IMPORTANT: Visual evidence is primary. If features contradict regional
    expectations, trust what you observe and note the discrepancy. Consider
    transported specimens (glacial erratics, building stones, fill material).
    "

/-- Block appended to the quick base prompt when no location context is used. -/
def quickNoLocBlock : String :=
"

    ═════════════════════════════════" ++ "══════════════════════════════════
    NO LOCATION CONTEXT - Visual Analysis Only
    ═════════════════════════════════" ++ "══════════════════════════════════

    Analyze based purely on observable features without regional geology knowledge.
    Focus on diagnostic visual characteristics: texture, structure, mineralogy.
    "

/-- `generate_comparison` prompt: text before the interpolated location. -/
def cmpSeg0 : String :=
"
    Compare these two rock analyses of the same image - one with location context ("

/-- `generate_comparison` prompt: text between the location and the serialized with-location analysis. -/
def cmpSeg1 : String :=
") and one without.

    Analysis WITH location:
    "

/-- `generate_comparison` prompt: text between the two serialized analyses. -/
def cmpSeg2 : String :=
"

    Analysis WITHOUT location:
    "

/-- `generate_comparison` prompt: text after the serialized without-location analysis. -/
def cmpSeg3 : String :=
"

    Provide a comparison with:
    - key_differences: List the main differences in rock identification
    - location_impact: How did location knowledge affect the analysis?
    - confidence_change: Average confidence change (positive means location improved confidence)
    - accuracy_assessment: Which analysis seems more accurate and why?
    - geological_insights: What geological insights does the comparison reveal?
    - recommendation: Should location context be used for this type of image?
    "

/-- Segment 1 of the geological variant base prompt. -/
def geoBase1 : String :=
"
    You are an experienced field geologist conducting a systematic geological analysis of rocks in this image.
    Your analysis will be used for scientific documentation, so apply rigorous field geology principles.

    ═════════════════════════════════" ++ "══════════════════════════════════
    ANALYTICAL FRAMEWORK - Use Your Extended Thinking Capability
    ═════════════════════════════════" ++ "══════════════════════════════════

    In your thinking process, follow this systematic approach for each rock:

    1. OBSERVATION PHASE
       - Systematically observe all visible features without interpretation
       - Note texture, color, structure, grain size, weathering patterns
       - Identify any distinctive features (crystals, fossils, layering, vesicles)
       - Assess scale and context clues

    2. INTERPRETATION PHASE
       - What do these features tell you about rock origin?
       - Consider multiple hypotheses (e.g., could this be volcanic OR contact metamorphic?)
       - Evaluate evidence strength for each hypothesis
       - Note any conflicting or ambiguous indicators

    3. CLASSIFICATION PHASE
       - Select the most appropriate standardized categories
       - Justify your classifications based on observed features
       - Assign confidence based on feature clarity and diagnostic certainty
       - Use \"unknown\" only when truly indeterminate, not when moderately uncertain

    ═════════════════════════════════" ++ "══════════════════════════════════
"

/-- Segment 2 of the geological variant base prompt. -/
def geoBase2 : String :=
"    STANDARDIZED CLASSIFICATION SYSTEM
    ═════════════════════════════════" ++ "══════════════════════════════════

    For each rock, select from these precise categories. Context provided to guide decisions:

    ┌─ ROCK CLASSIFICATION ─────────────────────────────────────────────
    │ rock_class - Primary genetic classification:
    │   • \"igneous_volcanic\" - Extrusive: basalt, rhyolite, andesite, tuff
    │   • \"igneous_plutonic\" - Intrusive: granite, gabbro, diorite
    │   • \"igneous_hypabyssal\" - Shallow intrusive: porphyry, dolerite
    │   • \"sedimentary_clastic\" - Fragment-based: sandstone, shale, conglomerate
    │   • \"sedimentary_chemical\" - Precipitated: limestone, dolomite, evaporites, tufa
    │   • \"sedimentary_organic\" - Biogenic: coal, diatomite
    │   • \"metamorphic_foliated\" - Layered: schist, gneiss, slate, phyllite
    │   • \"metamorphic_nonfoliated\" - Massive: marble, quartzite, hornfels
    │   • \"unconsolidated\" - Loose: soil, sand, gravel
    │   • \"unknown\" - Truly indeterminate only
    │
    │ Decision guide: Volcanic rocks show rapid cooling (fine grain, vesicles).
    │ Plutonic rocks show slow cooling (coarse, interlocking crystals).
    │ Sedimentary clastic shows grains/fragments. Chemical shows crystalline/massive texture.
    │ Metamorphic foliated shows alignment. Consider transition zones carefully.
    └────────────────────────────────────────────────────────────────────

"

/-- Segment 3 of the geological variant base prompt. -/
def geoBase3 : String :=
"    ┌─ SIZE CLASSIFICATION (Wentworth Scale) ───────────────────────────
    │ size_class - Particle or specimen size:
    │   • \"clay_silt\" - <0.0625mm particles (feels smooth, not gritty)
    │   • \"sand\" - 0.0625-2mm (gritty, individual grains barely visible)
    │   • \"granule\" - 2-4mm (small pebbles, pea-sized)
    │   • \"pebble\" - 4-64mm (thumbnail to fist-sized)
    │   • \"cobble\" - 64-256mm (fist to bowling ball)
    │   • \"boulder\" - 256-4096mm (larger than basketball)
    │   • \"block\" - >4096mm (very large, typically >4m)
    │   • \"outcrop\" - Bedrock exposure, not individual clast
    │
    │ Note: For clastic rocks, classify by clast size. For crystalline rocks,
    │ classify by overall specimen size unless describing component grain sizes.
    └────────────────────────────────────────────────────────────────────

    ┌─ GRAIN/CRYSTAL SIZE ──────────────────────────────────────────────
    │ grain_size - Internal texture scale:
    │   • \"cryptocrystalline\" - <0.1mm (appears smooth, no visible grains)
    │   • \"very_fine\" - 0.1-0.5mm (hand lens needed)
    │   • \"fine\" - 0.5-1mm (just visible to naked eye)
    │   • \"medium\" - 1-5mm (clearly visible grains/crystals)
    │   • \"coarse\" - 5-30mm (large distinct grains)
    │   • \"very_coarse\" - 30-100mm (very large crystals)
    │   • \"pegmatitic\" - >100mm (giant crystals)
    │   • \"mixed\" - Multiple distinct grain sizes (porphyritic, conglomerate)
    │   • \"not_applicable\" - Glassy, massive, or amorphous
"

/-- Segment 4 of the geological variant base prompt. -/
def geoBase4 : String :=
"    └────────────────────────────────────────────────────────────────────

    ┌─ WEATHERING ASSESSMENT ───────────────────────────────────────────
    │ weathering_grade (Standard rock weathering scale):
    │   • \"fresh\" - W0: No visible alteration, fresh surfaces
    │   • \"slight\" - W1: Discoloration, minor surface changes
    │   • \"moderate\" - W2: <50% minerals weathered, structure intact
    │   • \"high\" - W3: >50% weathered, structure weakening
    │   • \"complete\" - W4: All minerals altered, original texture obscured
    │   • \"residual_soil\" - W5: Complete decomposition to soil
    │
    │ weathering_type - Dominant process:
    │   • \"mechanical\" - Physical: frost wedging, thermal, abrasion
    │   • \"chemical\" - Solution, oxidation, hydrolysis (rust, dissolution)
    │   • \"biological\" - Roots, lichen, organic acids
    │   • \"spheroidal\" - Onion-skin rounded weathering
    │   • \"exfoliation\" - Sheet-like spalling
    │   • \"mixed\" - Multiple processes evident
    └────────────────────────────────────────────────────────────────────

    ┌─ PHYSICAL PROPERTIES ─────────────────────────────────────────────
    │ hardness_class (Mohs scale ranges):
    │   • \"very_soft\" - 1-2: Talc, gypsum (scratches with fingernail)
    │   • \"soft\" - 2-3: Calcite (scratches with coin)
    │   • \"medium\" - 3-5: Fluorite, apatite (scratches with knife)
    │   • \"hard\" - 5-7: Quartz, feldspar (scratches glass)
    │   • \"very_hard\" - 7-10: Corundum, diamond
    │
"

/-- Segment 5 of the geological variant base prompt. -/
def geoBase5 : String :=
"    │ primary_structure - Dominant structural feature:
    │   • \"massive\" - No visible internal structure
    │   • \"layered\" - Sedimentary bedding planes
    │   • \"foliated\" - Metamorphic alignment of minerals
    │   • \"vesicular\" - Gas bubble holes (volcanic)
    │   • \"amygdaloidal\" - Filled vesicles (mineralized)
    │   • \"porphyritic\" - Large crystals in fine matrix
    │   • \"brecciated\" - Angular fragments cemented
    │   • \"conglomeratic\" - Rounded clasts in matrix
    │   • \"crystalline\" - Interlocking crystal structure
    │   • \"concretionary\" - Spherical/nodular concentrations
    │
    │ fracture_type:
    │   • \"conchoidal\" - Shell-like curved surfaces (obsidian, chert)
    │   • \"joint_controlled\" - Breaks along structural planes
    │   • \"columnar\" - Hexagonal columns (basalt cooling joints)
    │   • \"blocky\", \"platy\", \"splintery\", \"irregular\"
    └────────────────────────────────────────────────────────────────────

    ┌─ ALTERATION & APPEARANCE ─────────────────────────────────────────
    │ alteration_type - Post-formation changes:
    │   • \"unaltered\" - Primary mineralogy intact
    │   • \"oxidized\" - Iron staining, rust colors
    │   • \"silicified\" - Quartz replacement/cementation
    │   • \"carbonatized\" - Carbonate mineral alteration
    │   • \"chloritized\" - Green chlorite alteration
    │   • \"sericitized\" - White mica (sericite) alteration
    │   • \"kaolinized\" - Clay mineral replacement
    │   • \"mineralized\" - Ore minerals introduced
"

/-- Segment 6 of the geological variant base prompt. -/
def geoBase6 : String :=
"    │   • \"hydrothermal\" - Hot water alteration
    │
    │ color_pattern:
    │   • \"uniform\", \"mottled\", \"banded\", \"spotted\", \"veined\", \"gradational\"
    └────────────────────────────────────────────────────────────────────

    ┌─ GEOLOGICAL CONTEXT ──────────────────────────────────────────────
    │ geological_context - Placement and transport history:
    │   • \"in_situ_outcrop\" - Bedrock in original position
    │   • \"displaced_block\" - Moved but clearly local source
    │   • \"float\" - Detached, uncertain transport distance
    │   • \"talus\" - Slope debris at base of outcrop
    │   • \"glacial_erratic\" - Glacially transported
    │   • \"stream_cobble\" - Water-worn and transported
    │   • \"artificial\" - Human-placed (building stone, fill)
    └────────────────────────────────────────────────────────────────────

    ┌─ CONFIDENCE CALIBRATION ──────────────────────────────────────────
    │ confidence_level & confidence_value (0.0-1.0):
    │   • \"very_high\" (0.8-1.0) - Diagnostic features clearly visible
    │   • \"high\" (0.6-0.8) - Strong evidence, minor uncertainty
    │   • \"medium\" (0.4-0.6) - Reasonable inference, some ambiguity
    │   • \"low\" (0.2-0.4) - Educated guess, limited features
    │   • \"very_low\" (0.0-0.2) - Highly uncertain, poor visibility
    │
    │ Calibration guidance: Be honest about uncertainty. High confidence
    │ requires diagnostic features. Consider image resolution, lighting,
"

/-- Segment 7 of the geological variant base prompt. -/
def geoBase7 : String :=
"    │ angle, and coverage. Partial views reduce confidence.
    └────────────────────────────────────────────────────────────────────

    ┌─ ADDITIONAL FIELDS ───────────────────────────────────────────────
    │ • image_position: Location in frame
    │ • estimated_diameter_cm: Best estimate of largest dimension
    │ • visible_minerals_count: Number of identifiable minerals
    │
    │ DESCRIPTIVE FIELDS (detailed professional descriptions):
    │ • specific_rock_name: Full geological name (e.g., \"biotite granite\")
    │ • color_details, texture_description, mineral_assemblage
    │ • surface_features, structural_features, shape_description
    │ • luster_description, special_features (fossils, xenoliths, etc.)
    │ • field_notes: Professional observations linking features to interpretation
    │ • likely_formation: Geological formation name if identifiable
    │ • age_estimate: Geological age if determinable from features/formation
    └────────────────────────────────────────────────────────────────────

    ═════════════════════════════════" ++ "══════════════════════════════════
    SUMMARY REQUIREMENTS
    ═════════════════════════════════" ++ "══════════════════════════════════

    Provide comprehensive geological interpretation including:
    • Tectonic setting and structural geology context
    • Depositional environment (for sedimentary)
    • Metamorphic grade (if applicable)
    • Regional geological setting
    • Economic geology significance
"

/-- Segment 8 of the geological variant base prompt. -/
def geoBase8 : String :=
"    • Recommended further analyses (thin sections, XRF, etc.)

    ═════════════════════════════════" ++ "══════════════════════════════════
    EDGE CASE GUIDANCE
    ═════════════════════════════════" ++ "══════════════════════════════════

    • Mixed rock types: Choose dominant class, note mixing in field_notes
    • Heavily weathered: Focus on relict textures and resistant minerals
    • Poor lighting/resolution: Lower confidence, describe limitations
    • Unusual features: Document thoroughly in special_features
    • Transitional rocks: Select closest match, explain reasoning in field_notes
    "

/-- The geological variant base prompt (`prompt` in `analyze_rocks_geological`),
assembled from consecutive segments; concatenating them yields the source
literal verbatim. -/
def geoBasePrompt : String :=
  geoBase1 ++ (geoBase2 ++ (geoBase3 ++ (geoBase4 ++ (geoBase5 ++ (geoBase6 ++ (geoBase7 ++ geoBase8))))))

/-- Text between the geological base prompt and the interpolated location. -/
def geoLocPre : String :=
"

    ═════════════════════════════════" ++ "══════════════════════════════════
    LOCATION CONTEXT - Use as Bayesian Prior, Not Confirmation
    ═════════════════════════════════" ++ "══════════════════════════════════

    Location: "

/-- Text following the interpolated location in the geological with-location prompt. -/
def geoLocPost : String :=
"

    IMPORTANT: Use location knowledge appropriately:

    1. VISUAL EVIDENCE IS PRIMARY
       - Base your identification primarily on observable features
       - Location provides context and probabilistic priors, not answers

    2. INTEGRATE REGIONAL GEOLOGY
       - Consider typical rock types in this region
       - Think about regional tectonic setting and geological history
       - Use knowledge of local formations and lithologies

    3. HANDLE CONFLICTS HONESTLY
       - If visual features contradict regional expectations, TRUST THE VISUALS
       - Explicitly note conflicts in field_notes (e.g., \"Visual features suggest
         X, but this is uncommon in [location]; possible transported specimen\")
       - Consider transported rocks: glacial erratics, building stones, fill material

    4. AVOID CONFIRMATION BIAS
       - Don\x27t force identification to match regional rock types
       - Unusual specimens exist; document them
       - Your confidence should reflect visual evidence quality, not location matching

    5. USE LOCATION TO ENHANCE, NOT OVERRIDE
       - Helps with formation identification
       - Informs age estimates
       - Provides tectonic context
       - But diagnostic features trump regional probabilities

    Example reasoning: \"Vesicular texture strongly indicates volcanic origin (high confidence).
    Location is in sedimentary terrain, suggesting this is displaced/transported volcanic rock,
    possibly glacial erratic or fill material.\"
    "

/-- Block appended to the geological base prompt when no location context is used. -/
def geoNoLocBlock : String :=
"

    ═════════════════════════════════" ++ "══════════════════════════════════
    NO LOCATION CONTEXT - Pure Visual Analysis
    ═════════════════════════════════" ++ "══════════════════════════════════

    Analyze based purely on observable features without regional geology knowledge.
    This approach eliminates location bias but may miss formation-specific insights.

    Focus entirely on:
    • Texture, structure, and mineralogy visible in image
    • Weathering patterns and alteration
    • Physical characteristics and relationships
    • Diagnostic features that indicate rock origin

    Without location, you cannot reliably:
    • Identify specific geological formations
    • Provide precise age estimates
    • Assess regional tectonic context
    • Evaluate typical vs. unusual occurrences

    Adjust confidence accordingly: High confidence only when diagnostic features
    are clearly visible and definitive.
    "

/-- Prompt builder of the quick variant (`analyze_rocks`): the base prompt is
extended with the location block exactly when `location` is truthy (non-empty)
and `use_location` is set, and with the fixed no-location block otherwise. -/
def analyze_rocks_prompt (location : Option String) (use_location : Bool) : String :=
  if pyTruthyStr location && use_location then
    quickBasePrompt ++ quickLocPre ++ location.getD "" ++ quickLocPost
  else
    quickBasePrompt ++ quickNoLocBlock

/-- Prompt builder of the geological variant (`analyze_rocks_geological`). -/
def analyze_rocks_geological_prompt (location : Option String) (use_location : Bool) : String :=
  if pyTruthyStr location && use_location then
    geoBasePrompt ++ geoLocPre ++ location.getD "" ++ geoLocPost
  else
    geoBasePrompt ++ geoNoLocBlock

/-- The comparison prompt built by `generate_comparison` in the quick variant:
both analysis results are serialized (`json.dumps(..., indent=2)`) and
interpolated into the template together with the location. `dumpW` and `dumpWo`
stand for the two serialized results. -/
def generate_comparison_prompt (dumpW dumpWo : String) (location : String) : String :=
  cmpSeg0 ++ location ++ cmpSeg1 ++ dumpW ++ cmpSeg2 ++ dumpWo ++ cmpSeg3

/-- Categorical vocabularies of the quick variant's `Rock` TypedDict
(`Literal`-typed fields, in source order). -/
def quickRockVocab : List (String × List String) :=
  [("primary_type", ["sedimentary", "igneous", "metamorphic", "unknown", "other"]),
   ("size_category", ["tiny", "small", "medium", "large", "boulder", "massive"]),
   ("weathering_state", ["fresh", "slightly_weathered", "moderately_weathered",
      "heavily_weathered", "extremely_weathered"]),
   ("confidence_level", ["very_low", "low", "medium", "high", "very_high"]),
   ("position", ["foreground", "midground", "background", "left", "right", "center",
      "top", "bottom", "multiple"])]

/-- Categorical vocabulary of the quick variant's `RockAnalysisSummary`. -/
def quickSummaryVocab : List (String × List String) :=
  [("dominant_rock_type", ["sedimentary", "igneous", "metamorphic", "unknown", "other"])]

/-- All categorical fields of the quick variant's schema. -/
def quickVocab : List (String × List String) := quickRockVocab ++ quickSummaryVocab

/-- Categorical vocabularies of the geological variant's `Rock` TypedDict. -/
def geoRockVocab : List (String × List String) :=
  [("rock_class", ["igneous_volcanic", "igneous_plutonic", "igneous_hypabyssal",
      "sedimentary_clastic", "sedimentary_chemical", "sedimentary_organic",
      "metamorphic_foliated", "metamorphic_nonfoliated", "unconsolidated", "unknown"]),
   ("size_class", ["clay_silt", "sand", "granule", "pebble", "cobble", "boulder",
      "block", "outcrop"]),
   ("grain_size", ["cryptocrystalline", "very_fine", "fine", "medium", "coarse",
      "very_coarse", "pegmatitic", "mixed", "not_applicable"]),
   ("weathering_grade", ["fresh", "slight", "moderate", "high", "complete",
      "residual_soil"]),
   ("weathering_type", ["none", "mechanical", "chemical", "biological", "mixed",
      "spheroidal", "exfoliation"]),
   ("hardness_class", ["very_soft", "soft", "medium", "hard", "very_hard"]),
   ("primary_structure", ["massive", "layered", "foliated", "vesicular",
      "amygdaloidal", "porphyritic", "brecciated", "conglomeratic", "crystalline",
      "concretionary"]),
   ("fracture_type", ["conchoidal", "irregular", "splintery", "blocky", "platy",
      "columnar", "joint_controlled", "none_visible"]),
   ("alteration_type", ["unaltered", "oxidized", "silicified", "carbonatized",
      "chloritized", "sericitized", "kaolinized", "mineralized", "metamorphosed",
      "hydrothermal"]),
   ("color_pattern", ["uniform", "mottled", "banded", "spotted", "veined",
      "gradational"]),
   ("geological_context", ["in_situ_outcrop", "displaced_block", "float", "talus",
      "glacial_erratic", "stream_cobble", "artificial", "unknown_context"]),
   ("confidence_level", ["very_low", "low", "medium", "high", "very_high"]),
   ("image_position", ["foreground", "midground", "background", "left", "right",
      "center", "multiple"])]

/-- All categorical fields of the geological variant's schema (the geological
summary has no `Literal`-typed field). -/
def geoVocab : List (String × List String) := geoRockVocab

/-- Tokens of the quick schema that the quick prompt never mentions: the whole
`position` enumeration. -/
def quickMissingTokens : List String :=
  ["foreground", "midground", "background", "left", "right", "center", "top",
   "bottom", "multiple"]

/-- Tokens of the quick schema that the quick prompt does enumerate. -/
def quickEnumeratedTokens : List String :=
  (quickVocab.flatMap (fun p => p.2)).filter (fun t => !(quickMissingTokens.contains t))

/-- Tokens of the geological schema that the geological prompt never mentions:
`weathering_type`'s `"none"`, `fracture_type`'s `"none_visible"`,
`alteration_type`'s `"metamorphosed"`, `geological_context`'s
`"unknown_context"`, and all `image_position` tokens except `"multiple"`. -/
def geoMissingTokens : List String :=
  ["none", "none_visible", "metamorphosed", "unknown_context", "foreground",
   "midground", "background", "left", "right", "center"]

/-- Tokens of the geological schema that the geological prompt does contain. -/
def geoEnumeratedTokens : List String :=
  (geoVocab.flatMap (fun p => p.2)).filter (fun t => !(geoMissingTokens.contains t))

/-- Summary value the quick invoker records:
`location if (location and use_location) else "No location context used"`. -/
def quickLocationContext (location : Option String) (use_location : Bool) : String :=
  if pyTruthyStr location && use_location then location.getD "" else "No location context used"

/-- Summary value the geological invoker records:
`location if (location and use_location) else "No location context"`. -/
def geoLocationUsed (location : Option String) (use_location : Bool) : String :=
  if pyTruthyStr location && use_location then location.getD "" else "No location context"

/-- `if 'summary' in result: result['summary'][fieldName] = v` on an arbitrary
parsed value, with Python's raising behaviour: `in` on a number raises
`TypeError`; item assignment on a non-dict `summary` raises; list membership
compares the string against the elements; string membership is a substring
test. -/
def setSummaryField (fieldName : String) (r : Value) (v : String) : Except Unit Value :=
  match r with
  | .obj fs =>
      match lookupField fs "summary" with
      | none => .ok r
      | some (.obj sfs) =>
          .ok (.obj (setField fs "summary" (.obj (setField sfs fieldName (.str v)))))
      | some _ => .error ()
  | .arr es =>
      if es.any (fun e => match e with | .str s => s == "summary" | _ => false) then
        .error ()
      else .ok r
  | .str s => if occursStr "summary" s then .error () else .ok r
  | .num _ => .error ()

/-- Result of `analyze_rocks` after the model call: `parsed` is the outcome of
`json.loads` on the response text (`none` when parsing raised); the summary's
`location_context` is then set. Every exception inside the `try` block is
caught and turned into `None`. -/
def analyze_rocks_result (parsed : Option Value) (location : Option String)
    (use_location : Bool) : Option Value :=
  match parsed with
  | none => none
  | some r =>
      match setSummaryField "location_context" r (quickLocationContext location use_location) with
      | .ok r2 => some r2
      | .error _ => none

/-- Result of `analyze_rocks_geological` after the model call; the summary's
`location_used` is set on success. -/
def analyze_rocks_geological_result (parsed : Option Value) (location : Option String)
    (use_location : Bool) : Option Value :=
  match parsed with
  | none => none
  | some r =>
      match setSummaryField "location_used" r (geoLocationUsed location use_location) with
      | .ok r2 => some r2
      | .error _ => none

/-- An invoker call with earlier results in scope: the call never touches
them. -/
def analyzeStepQuick (prior : List Value) (parsed : Option Value)
    (location : Option String) (use_location : Bool) : List Value × Option Value :=
  (prior, analyze_rocks_result parsed location use_location)

/-- Geological counterpart of `analyzeStepQuick`. -/
def analyzeStepGeo (prior : List Value) (parsed : Option Value)
    (location : Option String) (use_location : Bool) : List Value × Option Value :=
  (prior, analyze_rocks_geological_result parsed location use_location)

/-- Externally observable effects of one invoker call. -/
inductive Effect where
  | imageLoad
  | networkCall
deriving DecidableEq

/-- `analyze_rocks` from the top: `load_dotenv`/`os.getenv` first; a falsy
(absent or empty) `GEMINI_API_KEY` raises `ValueError` before the image is
opened and before any network call. Otherwise the image is loaded, the call is
made and the result post-processed. -/
def analyze_rocks_run (apiKey : Option String) (parsed : Option Value)
    (location : Option String) (use_location : Bool) :
    List Effect × Except String (Option Value) :=
  if pyTruthyStr apiKey then
    ([.imageLoad, .networkCall], .ok (analyze_rocks_result parsed location use_location))
  else
    ([], .error "GEMINI_API_KEY not found in .env file")

/-- `analyze_rocks_geological` from the top. -/
def analyze_rocks_geological_run (apiKey : Option String) (parsed : Option Value)
    (location : Option String) (use_location : Bool) :
    List Effect × Except String (Option Value) :=
  if pyTruthyStr apiKey then
    ([.imageLoad, .networkCall],
      .ok (analyze_rocks_geological_result parsed location use_location))
  else
    ([], .error "GEMINI_API_KEY not found in .env file")

/-- `compare_analyses` of the quick variant, over the two primary outcomes and
the comparison the model would return: yields the returned triple and whether
`generate_comparison` was invoked. If either primary result is falsy the
function returns `None, None, None` without invoking the comparator. -/
def compare_analyses (withLoc withoutLoc comparison : Option Value) :
    (Option Value × Option Value × Option Value) × Bool :=
  if !pyTruthyOpt withLoc || !pyTruthyOpt withoutLoc then
    ((none, none, none), false)
  else
    ((withLoc, withoutLoc, comparison), true)

/-- Results displayed by the quick `main` in compare mode: both, or none. -/
def quickMainCompareDisplayed (withLoc withoutLoc comparison : Option Value) : List Value :=
  match (compare_analyses withLoc withoutLoc comparison).1 with
  | (some w, some wo, _) => if w.pyTruthy && wo.pyTruthy then [w, wo] else []
  | _ => []

/-- Files written by the quick `main` in compare mode with `--save`: file name
paired with the object serialized into it (`json.dump(..., indent=2)`). -/
def quickMainCompareFiles (withLoc withoutLoc comparison : Option Value)
    (save : Bool) (baseName : String) : List (String × Value) :=
  match (compare_analyses withLoc withoutLoc comparison).1 with
  | (some w, some wo, c) =>
      if w.pyTruthy && wo.pyTruthy then
        if save then
          [("analysis_with_location_" ++ baseName ++ ".json", w),
           ("analysis_without_location_" ++ baseName ++ ".json", wo)]
          ++ (match c with
              | some cv =>
                  if cv.pyTruthy then
                    [("analysis_comparison_" ++ baseName ++ ".json", cv)]
                  else []
              | none => [])
        else []
      else []
  | _ => []

/-- Files written by the quick `main` in single mode: nothing if the invoker
raised (the exception is uncaught in `main`) or the result is falsy. -/
def quickMainSingleFiles (outcome : Except String (Option Value)) (save : Bool)
    (baseName : String) : List (String × Value) :=
  match outcome with
  | .error _ => []
  | .ok none => []
  | .ok (some v) =>
      if v.pyTruthy && save then [("rock_analysis_" ++ baseName ++ ".json", v)] else []

/-- Results displayed by the geological `main` in compare mode: each truthy
primary result is displayed right after its call. -/
def rockMainCompareDisplayed (withLoc withoutLoc : Option Value) : List Value :=
  (match withLoc with
   | some w => if w.pyTruthy then [w] else []
   | none => [])
  ++ (match withoutLoc with
      | some wo => if wo.pyTruthy then [wo] else []
      | none => [])

/-- Files written by the geological `main` in compare mode:
`if args.save and with_loc and without_loc`, one file per result. -/
def rockMainCompareFiles (withLoc withoutLoc : Option Value) (save : Bool)
    (baseName : String) : List (String × Value) :=
  match withLoc, withoutLoc with
  | some w, some wo =>
      if save && w.pyTruthy && wo.pyTruthy then
        [("geological_analysis_with_location_" ++ baseName ++ ".json", w),
         ("geological_analysis_without_location_" ++ baseName ++ ".json", wo)]
      else []
  | _, _ => []

/-- Files written by the geological `main` in single mode. -/
def rockMainSingleFiles (outcome : Except String (Option Value)) (save : Bool)
    (baseName : String) : List (String × Value) :=
  match outcome with
  | .error _ => []
  | .ok none => []
  | .ok (some v) =>
      if v.pyTruthy && save then
        [("geological_analysis_" ++ baseName ++ ".json", v)]
      else []

mutual
/-- Python `repr` of an embedded value (used when a value is interpolated into
an f-string; strings interpolate bare via `pyToStr`). -/
def pyRepr : Value → String
  | .str s => "\x27" ++ s ++ "\x27"
  | .num n => toString n
  | .arr es => "[" ++ pyReprElems es ++ "]"
  | .obj fs => "\x7b" ++ pyReprFields fs ++ "\x7d"
/-- Comma-separated reprs of list elements. -/
def pyReprElems : List Value → String
  | [] => ""
  | [v] => pyRepr v
  | v :: rest => pyRepr v ++ ", " ++ pyReprElems rest
/-- Comma-separated reprs of dict items. -/
def pyReprFields : List (String × Value) → String
  | [] => ""
  | [(k, v)] => "\x27" ++ k ++ "\x27: " ++ pyRepr v
  | (k, v) :: rest => "\x27" ++ k ++ "\x27: " ++ pyRepr v ++ ", " ++ pyReprFields rest
end

/-- Python `str()` as used by f-string interpolation. -/
def pyToStr : Value → String
  | .str s => s
  | v => pyRepr v

/-- Python `format(v, ".2f")` on the embedded (integer-valued) numbers;
strings, lists and dicts raise. -/
def pyFormat2f : Value → Except Unit String
  | .num n => .ok (toString n ++ ".00")
  | _ => .error ()

/-- Python `format(v, ".0f")`. -/
def pyFormat0f : Value → Except Unit String
  | .num n => .ok (toString n)
  | _ => .error ()

/-- Python `k in result` for a string key: dict key test, list membership,
substring test on strings; raises on a number. -/
def pyContainsKey (r : Value) (k : String) : Except Unit Bool :=
  match r with
  | .obj fs => .ok (lookupField fs k).isSome
  | .arr es => .ok (es.any (fun e => match e with | .str s => s == k | _ => false))
  | .str s => .ok (occursStr k s)
  | .num _ => .error ()

/-- Python `r[k]` for a string key: only dicts support it (a missing key or a
non-dict receiver raises). -/
def pySubscript (r : Value) (k : String) : Except Unit Value :=
  match r with
  | .obj fs =>
      match lookupField fs k with
      | some v => .ok v
      | none => .error ()
  | _ => .error ()

/-- Python `r.get(k, d)`: raises on non-dicts (`AttributeError`). -/
def pyDictGet (r : Value) (k : String) (d : Value) : Except Unit Value :=
  match r with
  | .obj fs => .ok ((lookupField fs k).getD d)
  | _ => .error ()

/-- Python `r.get(k)` with the implicit `None` default. -/
def pyDictGetOpt (r : Value) (k : String) : Except Unit (Option Value) :=
  match r with
  | .obj fs => .ok (lookupField fs k)
  | _ => .error ()

/-- Python `len(r)`: numbers have no length. -/
def pyLen (r : Value) : Except Unit Nat :=
  match r with
  | .arr es => .ok es.length
  | .obj fs => .ok fs.length
  | .str s => .ok s.length
  | .num _ => .error ()

/-- Python iteration: lists yield elements, strings characters, dicts keys;
numbers raise. -/
def pyIter (r : Value) : Except Unit (List Value) :=
  match r with
  | .arr es => .ok es
  | .str s => .ok (s.data.map (fun c => Value.str (String.mk [c])))
  | .obj fs => .ok (fs.map (fun p => Value.str p.1))
  | .num _ => .error ()

/-- Python `r[:n]`: slicing works on strings and lists only. -/
def pySlice (r : Value) (n : Nat) : Except Unit Value :=
  match r with
  | .str s => .ok (.str (s.take n))
  | .arr es => .ok (.arr (es.take n))
  | _ => .error ()

/-- Keys usable in a Python dict within this embedding (hashable scalars). -/
def keyHashable : Value → Bool
  | .str _ => true
  | .num _ => true
  | _ => false

/-- Equality of scalar dict keys. -/
def scalarKeyEq : Value → Value → Bool
  | .str a, .str b => a == b
  | .num a, .num b => a == b
  | _, _ => false

/-- `size_counts[size] = size_counts.get(size, 0) + 1`. -/
def bumpCount : List (Value × Nat) → Value → List (Value × Nat)
  | [], k => [(k, 1)]
  | (k0, n) :: rest, k =>
      if scalarKeyEq k0 k then (k0, n + 1) :: rest else (k0, n) :: bumpCount rest k

/-- `size in size_counts` / `size_counts[size]`. -/
def lookupCount : List (Value × Nat) → Value → Option Nat
  | [], _ => none
  | (k0, n) :: rest, k => if scalarKeyEq k0 k then some n else lookupCount rest k

/-- The `size_counts` accumulation loop of `display_results`: each rock's
`size_category` (default `'unknown'`) is tallied; a non-dict rock or an
unhashable category raises. -/
def sizeCountsLoop : List Value → List (Value × Nat) → Except Unit (List (Value × Nat))
  | [], counts => .ok counts
  | rock :: rest, counts => do
      let size ← pyDictGet rock "size_category" (Value.str "unknown")
      if keyHashable size then
        sizeCountsLoop rest (bumpCount counts size)
      else
        .error ()

/-- The 60-character `=` separator line. -/
def sep60 : String := String.mk (List.replicate 60 '=')

/-- The 60-character `-` separator line. -/
def dash60 : String := String.mk (List.replicate 60 '-')

/-- The 70-character `=` separator line. -/
def sep70 : String := String.mk (List.replicate 70 '=')

/-- The per-rock lines of `display_results`' INDIVIDUAL ROCKS loop. -/
def displayRockQuick (i : Nat) (rock : Value) : Except Unit (List String) := do
  let primary ← pyDictGet rock "primary_type" (Value.str "unknown")
  let specific ← pyDictGet rock "specific_rock_type" (Value.str "unspecified")
  let sizeCat ← pyDictGet rock "size_category" (Value.str "unknown")
  let sizeCm ← pyDictGet rock "estimated_size_cm" (Value.num 0)
  let sizeCmTxt ← pyFormat0f sizeCm
  let confLvl ← pyDictGet rock "confidence_level" (Value.str "unknown")
  let confVal ← pyDictGet rock "confidence_value" (Value.num 0)
  let confValTxt ← pyFormat2f confVal
  let weathering ← pyDictGet rock "weathering_state" (Value.str "unknown")
  let position ← pyDictGet rock "position" (Value.str "unknown")
  let base :=
    ["\nRock " ++ toString i ++ ":",
     "  Type: " ++ pyToStr primary ++ " (" ++ pyToStr specific ++ ")",
     "  Size: " ++ pyToStr sizeCat ++ " (~" ++ sizeCmTxt ++ "cm)",
     "  Confidence: " ++ pyToStr confLvl ++ " (" ++ confValTxt ++ ")",
     "  Weathering: " ++ pyToStr weathering,
     "  Position: " ++ pyToStr position]
  let color ← pyDictGetOpt rock "color_description"
  let colorLines ← match color with
    | some cv =>
        if cv.pyTruthy then do
          let sliced ← pySlice cv 80
          pure ["  Color: " ++ pyToStr sliced ++ "..."]
        else pure []
    | none => pure []
  let texture ← pyDictGetOpt rock "texture_details"
  let textureLines ← match texture with
    | some tv =>
        if tv.pyTruthy then do
          let sliced ← pySlice tv 80
          pure ["  Texture: " ++ pyToStr sliced ++ "..."]
        else pure []
    | none => pure []
  let notes ← pyDictGetOpt rock "geological_notes"
  let notesLines ← match notes with
    | some nv =>
        if nv.pyTruthy then do
          let sliced ← pySlice nv 100
          pure ["  Notes: " ++ pyToStr sliced ++ "..."]
        else pure []
    | none => pure []
  pure (base ++ colorLines ++ textureLines ++ notesLines)

/-- The INDIVIDUAL ROCKS loop. -/
def displayRocksQuickLoop : Nat → List Value → Except Unit (List String)
  | _, [] => .ok []
  | i, rock :: rest => do
      let lines ← displayRockQuick i rock
      let more ← displayRocksQuickLoop (i + 1) rest
      pure (lines ++ more)

/-- `display_results` of the quick variant: the printed lines, or an error
when some access raises. -/
def display_results (result : Value) (title : String) : Except Unit (List String) := do
  let header := ["\n" ++ sep60, title, sep60]
  let hasSummary ← pyContainsKey result "summary"
  let summaryLines ← if hasSummary then do
      let summary ← pySubscript result "summary"
      let totalRocks ← pyDictGet summary "total_rocks" (Value.num 0)
      let dominant ← pyDictGet summary "dominant_rock_type" (Value.str "Unknown")
      let avgConf ← pyDictGet summary "average_confidence" (Value.num 0)
      let avgConfTxt ← pyFormat2f avgConf
      let locCtx ← pyDictGet summary "location_context" (Value.str "None")
      let base :=
        ["\nSUMMARY:",
         "Total rocks: " ++ pyToStr totalRocks,
         "Dominant type: " ++ pyToStr dominant,
         "Average confidence: " ++ avgConfTxt,
         "Location context: " ++ pyToStr locCtx]
      let hasRocks ← pyContainsKey result "rocks"
      let distLines ← if hasRocks then do
          let rocksVal ← pySubscript result "rocks"
          let rocks ← pyIter rocksVal
          let counts ← sizeCountsLoop rocks []
          let sizeLines := (["tiny", "small", "medium", "large", "boulder",
            "massive"].map (fun size =>
              match lookupCount counts (Value.str size) with
              | some n => ["  " ++ size ++ ": " ++ toString n]
              | none => [])).flatten
          pure (["\nSize distribution:"] ++ sizeLines)
        else pure []
      pure (base ++ distLines)
    else pure []
  let hasRocks2 ← pyContainsKey result "rocks"
  let rockLines ← if hasRocks2 then do
      let rocksVal ← pySubscript result "rocks"
      let n ← pyLen rocksVal
      let rocks ← pyIter rocksVal
      let lines ← displayRocksQuickLoop 1 rocks
      pure (["\nINDIVIDUAL ROCKS (" ++ toString n ++ " identified):", dash60] ++ lines)
    else pure []
  pure (header ++ summaryLines ++ rockLines)

/-- `if rock.get(key): print(f"label {rock[key]}")` — guarded plain print. -/
def guardedPlainLine (rock : Value) (key : String) (label : String) :
    Except Unit (List String) := do
  let v ← pyDictGetOpt rock key
  match v with
  | some mv =>
      if mv.pyTruthy then do
        let raw ← pySubscript rock key
        pure [label ++ pyToStr raw]
      else pure []
  | none => pure []

/-- `if rock.get(key): print(f"label {rock[key][:n]}...")` — guarded sliced
print (the guard value and the subscripted value coincide on dicts). -/
def guardedSlicedLine (rock : Value) (key : String) (label : String) (n : Nat) :
    Except Unit (List String) := do
  let v ← pyDictGetOpt rock key
  match v with
  | some mv =>
      if mv.pyTruthy then do
        let sliced ← pySlice mv n
        pure [label ++ pyToStr sliced ++ "..."]
      else pure []
  | none => pure []

/-- `if s.get(key): print(header); for item in s[key]: print(mark + item)` —
guarded iteration block. -/
def guardedIterBlock (s : Value) (key : String) (header mark : String) :
    Except Unit (List String) := do
  let v ← pyDictGetOpt s key
  match v with
  | some rv =>
      if rv.pyTruthy then do
        let raw ← pySubscript s key
        let items ← pyIter raw
        pure ([header] ++ items.map (fun a => mark ++ pyToStr a))
      else pure []
  | none => pure []

/-- `if key in result: print(... result[key] ...)` — subscript-if-present
block rendering fixed surrounding lines. -/
def subscriptIfPresent (result : Value) (key : String) (mk : Value → List String) :
    Except Unit (List String) := do
  let has ← pyContainsKey result key
  if has then do
    let v ← pySubscript result key
    pure (mk v)
  else pure []

/-- The per-specimen lines of `display_geological_results`. -/
def displayRockGeo (i : Nat) (rock : Value) : Except Unit (List String) := do
  let rockClass ← pyDictGet rock "rock_class" (Value.str "unknown")
  let specific ← pyDictGet rock "specific_rock_name" (Value.str "Unidentified")
  let sizeClass ← pyDictGet rock "size_class" (Value.str "unknown")
  let diam ← pyDictGet rock "estimated_diameter_cm" (Value.num 0)
  let diamTxt ← pyFormat0f diam
  let grain ← pyDictGet rock "grain_size" (Value.str "unknown")
  let hardness ← pyDictGet rock "hardness_class" (Value.str "unknown")
  let struct ← pyDictGet rock "primary_structure" (Value.str "unknown")
  let wGrade ← pyDictGet rock "weathering_grade" (Value.str "unknown")
  let wType ← pyDictGet rock "weathering_type" (Value.str "unknown")
  let alteration ← pyDictGet rock "alteration_type" (Value.str "unknown")
  let context ← pyDictGet rock "geological_context" (Value.str "unknown")
  let confLvl ← pyDictGet rock "confidence_level" (Value.str "unknown")
  let confVal ← pyDictGet rock "confidence_value" (Value.num 0)
  let confValTxt ← pyFormat2f confVal
  let base :=
    ["\n--- Specimen " ++ toString i ++ " ---",
     "Classification: " ++ pyToStr rockClass,
     "Specific name: " ++ pyToStr specific,
     "Size: " ++ pyToStr sizeClass ++ " (~" ++ diamTxt ++ " cm)",
     "Grain size: " ++ pyToStr grain,
     "Hardness: " ++ pyToStr hardness,
     "Structure: " ++ pyToStr struct,
     "Weathering: " ++ pyToStr wGrade ++ " (" ++ pyToStr wType ++ ")",
     "Alteration: " ++ pyToStr alteration,
     "Context: " ++ pyToStr context,
     "Confidence: " ++ pyToStr confLvl ++ " (" ++ confValTxt ++ ")"]
  let mineralLines ← guardedPlainLine rock "mineral_assemblage" "Minerals: "
  let notesLines ← guardedSlicedLine rock "field_notes" "Field notes: " 200
  let formationLines ← guardedPlainLine rock "likely_formation" "Formation: "
  pure (base ++ mineralLines ++ notesLines ++ formationLines)

/-- The DETAILED SPECIMEN DESCRIPTIONS loop. -/
def displayRocksGeoLoop : Nat → List Value → Except Unit (List String)
  | _, [] => .ok []
  | i, rock :: rest => do
      let lines ← displayRockGeo i rock
      let more ← displayRocksGeoLoop (i + 1) rest
      pure (lines ++ more)

/-- `display_geological_results`: the printed report lines, or an error when
some access raises. A falsy result returns early with a notice. -/
def display_geological_results (result : Value) : Except Unit (List String) := do
  if result.pyTruthy = false then
    pure ["No results to display"]
  else do
    let header := ["\n" ++ sep70, "GEOLOGICAL ANALYSIS REPORT", sep70]
    let hasSummary ← pyContainsKey result "summary"
    let summaryLines ← if hasSummary then do
        let s ← pySubscript result "summary"
        let totalRocks ← pyDictGet s "total_rocks" (Value.num 0)
        let dominant ← pyDictGet s "dominant_rock_class" (Value.str "Unknown")
        let secondary ← pyDictGet s "secondary_rock_class" (Value.str "None")
        let grainSize ← pyDictGet s "average_grain_size" (Value.str "Unknown")
        let weathering ← pyDictGet s "weathering_assessment" (Value.str "Unknown")
        let locUsed ← pyDictGet s "location_used" (Value.str "Unknown")
        let setting ← pyDictGet s "geological_setting" (Value.str "Unknown")
        let tectonic ← pyDictGet s "tectonic_interpretation" (Value.str "Unknown")
        let depo ← pyDictGet s "depositional_environment" (Value.str "N/A")
        let grade ← pyDictGet s "metamorphic_grade" (Value.str "N/A")
        let base :=
          ["\nEXECUTIVE SUMMARY:",
           "  Total specimens: " ++ pyToStr totalRocks,
           "  Dominant lithology: " ++ pyToStr dominant,
           "  Secondary lithology: " ++ pyToStr secondary,
           "  Average grain size: " ++ pyToStr grainSize,
           "  Weathering assessment: " ++ pyToStr weathering,
           "  Location: " ++ pyToStr locUsed,
           "\nGEOLOGICAL INTERPRETATION:",
           "  Setting: " ++ pyToStr setting,
           "  Tectonic context: " ++ pyToStr tectonic,
           "  Depositional environment: " ++ pyToStr depo,
           "  Metamorphic grade: " ++ pyToStr grade]
        let econLines ← guardedPlainLine s "economic_geology_notes"
          "\nECONOMIC GEOLOGY: "
        let recLines ← guardedIterBlock s "recommended_analyses"
          "\nRECOMMENDED ANALYSES:" "  • "
        pure (base ++ econLines ++ recLines)
      else pure []
    let hasRocks ← pyContainsKey result "rocks"
    let rockLines ← if hasRocks then do
        let rocksVal ← pySubscript result "rocks"
        let n ← pyLen rocksVal
        let rocks ← pyIter rocksVal
        let lines ← displayRocksGeoLoop 1 rocks
        pure (["\n" ++ sep70,
          "DETAILED SPECIMEN DESCRIPTIONS (" ++ toString n ++ " specimens)",
          sep70] ++ lines)
      else pure []
    let interpLines ← subscriptIfPresent result "geological_interpretation"
      (fun v => ["\n" ++ sep70, "OVERALL GEOLOGICAL INTERPRETATION", sep70, pyToStr v])
    let confLines ← subscriptIfPresent result "confidence_assessment"
      (fun v => ["\nCONFIDENCE ASSESSMENT:", pyToStr v])
    pure (header ++ summaryLines ++ rockLines ++ interpLines ++ confLines)

/-- Optional field absent, or a (JSON-integer) number. -/
def numOpt : Option Value → Bool
  | none => true
  | some (.num _) => true
  | some _ => false

/-- Optional field that will not be sliced (absent or falsy) or can be sliced
(string or list). -/
def sliceableOpt : Option Value → Bool
  | none => true
  | some v =>
      !v.pyTruthy || (match v with | .str _ => true | .arr _ => true | _ => false)

/-- Optional field that will not be iterated (absent or falsy) or can be
iterated (anything but a number). -/
def iterableOpt : Option Value → Bool
  | none => true
  | some v => !v.pyTruthy || (match v with | .num _ => false | _ => true)

/-- Rocks the quick reporter renders without raising: dicts whose present
typed fields have renderable types. -/
def wellShapedRockQuick (rock : Value) : Bool :=
  match rock with
  | .obj rf =>
      keyHashable ((lookupField rf "size_category").getD (Value.str "unknown"))
      && numOpt (lookupField rf "estimated_size_cm")
      && numOpt (lookupField rf "confidence_value")
      && sliceableOpt (lookupField rf "color_description")
      && sliceableOpt (lookupField rf "texture_details")
      && sliceableOpt (lookupField rf "geological_notes")
  | _ => false

/-- Results the quick reporter renders without raising. -/
def wellShapedQuickResult (result : Value) : Bool :=
  match result with
  | .obj fs =>
      (match lookupField fs "summary" with
       | none => true
       | some (.obj sfs) => numOpt (lookupField sfs "average_confidence")
       | some _ => false)
      && (match lookupField fs "rocks" with
       | none => true
       | some (.arr rocks) => rocks.all wellShapedRockQuick
       | some _ => false)
  | _ => false

/-- Rocks the geological reporter renders without raising. -/
def wellShapedRockGeo (rock : Value) : Bool :=
  match rock with
  | .obj rf =>
      numOpt (lookupField rf "estimated_diameter_cm")
      && numOpt (lookupField rf "confidence_value")
      && sliceableOpt (lookupField rf "field_notes")
  | _ => false

/-- Results the geological reporter renders without raising. -/
def wellShapedGeoResult (result : Value) : Bool :=
  match result with
  | .obj fs =>
      (match lookupField fs "summary" with
       | none => true
       | some (.obj sfs) => iterableOpt (lookupField sfs "recommended_analyses")
       | some _ => false)
      && (match lookupField fs "rocks" with
       | none => true
       | some (.arr rocks) => rocks.all wellShapedRockGeo
       | some _ => false)
  | _ => false

/-- Characters that the modelled serializer writes verbatim inside a JSON
string literal: printable ASCII except the quote and the backslash (everything
else would be escaped by `json.dump`). -/
def plainChar (c : Char) : Bool :=
  decide (32 ≤ c.toNat) && decide (c.toNat ≤ 126) && !(c == '"') && !(c == '\\')

/-- Strings serialized verbatim. -/
def plainString (s : String) : Bool := s.data.all plainChar

mutual
/-- Values whose strings (including dict keys) are serialized verbatim. -/
def goodValue : Value → Bool
  | .str s => plainString s
  | .num _ => true
  | .arr es => goodElems es
  | .obj fs => goodFields fs

/-- `goodValue` on list elements. -/
def goodElems : List Value → Bool
  | [] => true
  | v :: vs => goodValue v && goodElems vs

/-- `goodValue` on dict fields. -/
def goodFields : List (String × Value) → Bool
  | [] => true
  | (k, v) :: fs => plainString k && goodValue v && goodFields fs
end

mutual
/-- Node-counting size used as parser fuel. -/
def vsize : Value → Nat
  | .str _ => 1
  | .num _ => 1
  | .arr es => 1 + esize es
  | .obj fs => 1 + fsize fs

/-- Size of list elements. -/
def esize : List Value → Nat
  | [] => 0
  | v :: vs => 1 + vsize v + esize vs

/-- Size of dict fields. -/
def fsize : List (String × Value) → Nat
  | [] => 0
  | (_, v) :: fs => 1 + vsize v + fsize fs
end

/-- `n` spaces. -/
def spaces (n : Nat) : String := String.mk (List.replicate n ' ')

/-- Decimal digits of a natural number, most significant first (without the
zero special case). -/
def natCharsRec (n : Nat) : List Char :=
  ((Nat.digits 10 n).map (fun d => Char.ofNat (48 + d))).reverse

/-- Python `repr` of a natural number. -/
def natChars (n : Nat) : List Char :=
  if n = 0 then ['0'] else natCharsRec n

/-- Python `repr` of an integer. -/
def intChars : Int → String
  | Int.ofNat m => String.mk (natChars m)
  | Int.negSucc m => String.mk ('-' :: natChars (m + 1))

mutual
/-- Modelled from the spec: `json.dump(obj, f, indent=2)` — UTF-8 JSON,
pretty-printed with 2-space indentation (the `json` library is external to
this repository, so the serializer is modelled from the spec's format
description). `ind` is the indentation level of the surrounding construct. -/
def render : Value → Nat → String
  | .str s, _ => "\"" ++ s ++ "\""
  | .num n, _ => intChars n
  | .arr [], _ => "[]"
  | .arr (x :: xs), ind =>
      "[\n" ++ renderElems (x :: xs) (ind + 2) ++ "\n" ++ spaces ind ++ "]"
  | .obj [], _ => "\x7b\x7d"
  | .obj (f :: fs), ind =>
      "\x7b\n" ++ renderFields (f :: fs) (ind + 2) ++ "\n" ++ spaces ind ++ "\x7d"
/-- Rendering of the comma-separated, indented element lines. -/
def renderElems : List Value → Nat → String
  | [], _ => ""
  | [x], ind => spaces ind ++ render x ind
  | x :: y :: xs, ind =>
      spaces ind ++ render x ind ++ ",\n" ++ renderElems (y :: xs) ind
/-- Rendering of the comma-separated, indented `"key": value` lines. -/
def renderFields : List (String × Value) → Nat → String
  | [], _ => ""
  | [(k, v)], ind => spaces ind ++ "\"" ++ k ++ "\": " ++ render v ind
  | (k, v) :: f :: fs, ind =>
      spaces ind ++ "\"" ++ k ++ "\": " ++ render v ind ++ ",\n"
        ++ renderFields (f :: fs) ind
end

/-- Modelled from the spec: `json.dumps(obj, indent=2)` / the content
`json.dump(obj, f, indent=2)` writes. -/
def dumps (v : Value) : String := render v 0

/-- JSON whitespace. -/
def isWsChar (c : Char) : Bool := c == ' ' || c == '\n' || c == '\t' || c == '\r'

/-- Drop leading whitespace. -/
def skipWs : List Char → List Char
  | [] => []
  | c :: rest => if isWsChar c then skipWs rest else c :: rest

/-- ASCII decimal digit test. -/
def isDigitChar (c : Char) : Bool := decide (48 ≤ c.toNat) && decide (c.toNat ≤ 57)

/-- Maximal leading digit run. -/
def takeDigits : List Char → List Char × List Char
  | [] => ([], [])
  | c :: rest =>
      if isDigitChar c then
        let (ds, r) := takeDigits rest
        (c :: ds, r)
      else ([], c :: rest)

/-- Value of a digit run. -/
def digitsToNat (ds : List Char) : Nat :=
  ds.foldl (fun acc c => acc * 10 + (c.toNat - 48)) 0

/-- Characters of a string literal up to the closing quote. -/
def takeStringChars : List Char → Option (List Char × List Char)
  | [] => none
  | c :: rest =>
      if c == '"' then some ([], rest)
      else
        match takeStringChars rest with
        | some (s, r) => some (c :: s, r)
        | none => none

/-- The first character of `l` is not a digit (or `l` is empty). -/
def headNonDigit : List Char → Bool
  | [] => true
  | c :: _ => !isDigitChar c

mutual
/-- Modelled from the spec: `json.loads` on the fragment the serializer
emits — fuelled recursive-descent parsing of one JSON value. -/
def parseValue : Nat → List Char → Option (Value × List Char)
  | 0, _ => none
  | fuel + 1, input =>
      match skipWs input with
      | [] => none
      | c :: rest =>
          if c == '"' then
            match takeStringChars rest with
            | some (s, r) => some (.str (String.mk s), r)
            | none => none
          else if c == '[' then
            match skipWs rest with
            | [] => none
            | c2 :: r2 =>
                if c2 == ']' then some (.arr [], r2)
                else
                  match parseElems fuel (c2 :: r2) with
                  | some (es, r3) => some (.arr es, r3)
                  | none => none
          else if c == '\x7b' then
            match skipWs rest with
            | [] => none
            | c2 :: r2 =>
                if c2 == '\x7d' then some (.obj [], r2)
                else
                  match parseFields fuel (c2 :: r2) with
                  | some (fs, r3) => some (.obj fs, r3)
                  | none => none
          else if c == '-' then
            match takeDigits rest with
            | ([], _) => none
            | (d :: ds, r) => some (.num (Int.negOfNat (digitsToNat (d :: ds))), r)
          else if isDigitChar c then
            match takeDigits (c :: rest) with
            | (ds, r) => some (.num (Int.ofNat (digitsToNat ds)), r)
          else none
/-- Parse `value (',' value)* ']'`. -/
def parseElems : Nat → List Char → Option (List Value × List Char)
  | 0, _ => none
  | fuel + 1, input =>
      match parseValue fuel input with
      | some (v, r) =>
          match skipWs r with
          | [] => none
          | c :: r2 =>
              if c == ',' then
                match parseElems fuel r2 with
                | some (vs, r3) => some (v :: vs, r3)
                | none => none
              else if c == ']' then some ([v], r2)
              else none
      | none => none
/-- Parse `"key": value (',' "key": value)* '\x7d'`. -/
def parseFields : Nat → List Char → Option (List (String × Value) × List Char)
  | 0, _ => none
  | fuel + 1, input =>
      match skipWs input with
      | [] => none
      | c :: rest =>
          if c == '"' then
            match takeStringChars rest with
            | some (k, r) =>
                match skipWs r with
                | [] => none
                | c2 :: r2 =>
                    if c2 == ':' then
                      match parseValue fuel r2 with
                      | some (v, r3) =>
                          match skipWs r3 with
                          | [] => none
                          | c3 :: r4 =>
                              if c3 == ',' then
                                match parseFields fuel r4 with
                                | some (fs, r5) => some ((String.mk k, v) :: fs, r5)
                                | none => none
                              else if c3 == '\x7d' then some ([(String.mk k, v)], r4)
                              else none
                      | none => none
                    else none
            | none => none
          else none
end

/-- Modelled from the spec: `json.loads` of a whole document — parse one value
and require only trailing whitespace. -/
def loads (s : String) : Option Value :=
  match parseValue (s.length + 1) s.data with
  | some (v, rest) => if (skipWs rest).isEmpty then some v else none
  | none => none

/-- All characters are JSON whitespace. -/
def allWs (l : List Char) : Bool := l.all isWsChar


theorem lookupField_setField_same (l : List (String × Value)) (key : String) (v : Value) :
    lookupField (setField l key v) key = some v := by
  induction l with
  | nil => simp [setField, lookupField]
  | cons hd tl ih =>
      obtain ⟨k, w⟩ := hd
      by_cases h : k = key
      · simp [setField, lookupField, h]
      · simp [setField, lookupField, h, ih]

theorem lookupField_setField_other (l : List (String × Value)) (key k' : String) (v : Value)
    (hne : k' ≠ key) : lookupField (setField l key v) k' = lookupField l k' := by
  induction l with
  | nil => simp [setField, lookupField, Ne.symm hne]
  | cons hd tl ih =>
      obtain ⟨k, w⟩ := hd
      by_cases h : k = key
      · subst h
        simp [setField, lookupField, Ne.symm hne]
      · simp [setField, lookupField, h, ih]

theorem charsPrefix_append (pat s t : List Char) (h : charsPrefix pat s = true) :
    charsPrefix pat (s ++ t) = true := by
  induction pat generalizing s with
  | nil => simp [charsPrefix]
  | cons c cs ih =>
      cases s with
      | nil => simp [charsPrefix] at h
      | cons d ds =>
          simp only [charsPrefix, Bool.and_eq_true] at h
          simp only [List.cons_append, charsPrefix, Bool.and_eq_true]
          exact ⟨h.1, ih ds h.2⟩

theorem charsOccurs_append_left (pat s t : List Char) (h : charsOccurs pat s = true) :
    charsOccurs pat (s ++ t) = true := by
  induction s with
  | nil =>
      simp only [charsOccurs] at h
      cases t with
      | nil => simpa [charsOccurs] using h
      | cons d ds =>
          have : charsPrefix pat (d :: ds) = true := by
            have := charsPrefix_append pat [] (d :: ds) h
            simpa using this
          simp [charsOccurs, this]
  | cons c cs ih =>
      simp only [charsOccurs, Bool.or_eq_true] at h
      rcases h with h | h
      · have hp := charsPrefix_append pat (c :: cs) t h
        rw [List.cons_append] at hp
        simp [charsOccurs, hp]
      · simp [charsOccurs, ih h]

/-- Occurrence in the left part of a concatenation, on strings. -/
theorem occursStr_append_left (pat s t : String) (h : occursStr pat s = true) :
    occursStr pat (s ++ t) = true := by
  have hd : (s ++ t).data = s.data ++ t.data := by
    cases s; cases t; rfl
  unfold occursStr at h ⊢
  rw [hd]
  exact charsOccurs_append_left _ _ _ h

theorem charsOccurs_cons (pat : List Char) (c : Char) (rest : List Char)
    (h : charsOccurs pat rest = true) : charsOccurs pat (c :: rest) = true := by
  simp [charsOccurs, h]

theorem charsOccurs_append_right (pat s t : List Char) (h : charsOccurs pat t = true) :
    charsOccurs pat (s ++ t) = true := by
  induction s with
  | nil => simpa using h
  | cons c cs ih => exact charsOccurs_cons pat c (cs ++ t) ih

/-- A prefix test only inspects the first `pat.length` characters. -/
theorem charsPrefix_take (pat s : List Char) :
    charsPrefix pat (s.take pat.length) = charsPrefix pat s := by
  induction pat generalizing s with
  | nil => simp [charsPrefix]
  | cons c cs ih =>
      cases s with
      | nil => simp [charsPrefix]
      | cons d ds => simp [charsPrefix, List.take_succ_cons, ih ds]

/-- An occurrence of `pat` in `a ++ b` either fits inside `a` extended by the
first `pat.length - 1` characters of `b`, or lies entirely inside `b`. -/
theorem charsOccurs_append_elim (pat a b : List Char)
    (h : charsOccurs pat (a ++ b) = true) :
    charsOccurs pat (a ++ b.take (pat.length - 1)) = true ∨ charsOccurs pat b = true := by
  induction a with
  | nil => right; simpa using h
  | cons c a' ih =>
      simp only [List.cons_append, charsOccurs, Bool.or_eq_true] at h
      rcases h with h | h
      · left
        cases pat with
        | nil => simp [charsOccurs, charsPrefix]
        | cons p ps =>
            have hs : charsPrefix (p :: ps) ((c :: a') ++ b) = true := by
              simpa [List.cons_append] using h
            have hlen : (p :: ps).length - (c :: a').length ≤ ps.length := by
              simp only [List.length_cons]
              omega
            have hpre : charsPrefix (p :: ps) ((c :: a') ++ List.take ps.length b) = true := by
              rw [← charsPrefix_take] at hs ⊢
              rw [List.take_append_eq_append_take] at hs ⊢
              rw [List.take_take, Nat.min_eq_left hlen]
              exact hs
            have hlen1 : (p :: ps).length - 1 = ps.length := by simp
            rw [hlen1]
            rw [List.cons_append] at hpre
            simp [charsOccurs, hpre]
      · rcases ih h with h' | h'
        · exact Or.inl (charsOccurs_cons pat c _ h')
        · exact Or.inr h'

/-- Combining non-occurrence over a split: if `pat` occurs neither in `a`
extended by a `pat`-sized overlap of `b` nor in `b`, it does not occur in
`a ++ b`. -/
theorem charsOccurs_append_eq_false (pat a b : List Char)
    (h1 : charsOccurs pat (a ++ b.take (pat.length - 1)) = false)
    (h2 : charsOccurs pat b = false) : charsOccurs pat (a ++ b) = false := by
  cases hc : charsOccurs pat (a ++ b) with
  | false => rfl
  | true =>
      rcases charsOccurs_append_elim pat a b hc with h | h
      · rw [h1] at h; exact absurd h (by simp)
      · rw [h2] at h; exact absurd h (by simp)

theorem charsPrefix_self_append (pat u : List Char) :
    charsPrefix pat (pat ++ u) = true := by
  induction pat with
  | nil => simp [charsPrefix]
  | cons c cs ih => simp [charsPrefix, ih]

/-- Occurrences in a suffix survive prepending. -/
theorem charsCount_le_append (pat s t : List Char) :
    charsCount pat t ≤ charsCount pat (s ++ t) := by
  induction s with
  | nil => simp
  | cons c cs ih =>
      calc charsCount pat t ≤ charsCount pat (cs ++ t) := ih
      _ ≤ (if charsPrefix pat ((c :: cs) ++ t) then 1 else 0) + charsCount pat (cs ++ t) := by
          omega
      _ = charsCount pat ((c :: cs) ++ t) := by
          cases hcs : cs ++ t with
          | nil => simp [charsCount, List.cons_append, hcs]
          | cons d ds => simp [charsCount, List.cons_append, hcs]

/-- A leading copy of a nonempty `pat` contributes one occurrence on top of
those of the remainder. -/
theorem charsCount_self_append (p : Char) (ps u : List Char) :
    1 + charsCount (p :: ps) u ≤ charsCount (p :: ps) ((p :: ps) ++ u) := by
  have hpre' : charsPrefix (p :: ps) (p :: (ps ++ u)) = true := by
    simpa [List.cons_append] using charsPrefix_self_append (p :: ps) u
  have hle := charsCount_le_append (p :: ps) ps u
  have hexp : charsCount (p :: ps) ((p :: ps) ++ u)
      = 1 + charsCount (p :: ps) (ps ++ u) := by
    show charsCount (p :: ps) (p :: (ps ++ u)) = 1 + charsCount (p :: ps) (ps ++ u)
    simp [charsCount, hpre']
  rw [hexp]
  omega

/-- Two disjoint marked copies of a nonempty pattern yield at least two
occurrences. -/
theorem charsCount_two (p : Char) (ps a b c : List Char) :
    2 ≤ charsCount (p :: ps) (a ++ (p :: ps) ++ b ++ (p :: ps) ++ c) := by
  have h1 : 1 + charsCount (p :: ps) c ≤ charsCount (p :: ps) ((p :: ps) ++ c) :=
    charsCount_self_append p ps c
  have h2 : charsCount (p :: ps) ((p :: ps) ++ c) ≤ charsCount (p :: ps) (b ++ ((p :: ps) ++ c)) :=
    charsCount_le_append _ _ _
  have h3 : 1 + charsCount (p :: ps) (b ++ ((p :: ps) ++ c))
      ≤ charsCount (p :: ps) ((p :: ps) ++ (b ++ ((p :: ps) ++ c))) :=
    charsCount_self_append p ps _
  have h4 : charsCount (p :: ps) ((p :: ps) ++ (b ++ ((p :: ps) ++ c)))
      ≤ charsCount (p :: ps) (a ++ ((p :: ps) ++ (b ++ ((p :: ps) ++ c)))) :=
    charsCount_le_append _ _ _
  have hassoc : a ++ (p :: ps) ++ b ++ (p :: ps) ++ c
      = a ++ ((p :: ps) ++ (b ++ ((p :: ps) ++ c))) := by
    simp [List.append_assoc]
  rw [hassoc]
  omega

/-- `(s ++ t).data` splits into the two data lists. -/
theorem string_data_append (s t : String) : (s ++ t).data = s.data ++ t.data := by
  cases s; cases t; rfl

/-- A pattern occurs at the front of `pat ++ u`. -/
theorem charsOccurs_self_append (pat u : List Char) :
    charsOccurs pat (pat ++ u) = true := by
  have hpre := charsPrefix_self_append pat u
  cases h : pat ++ u with
  | nil =>
      rw [h] at hpre
      simpa [charsOccurs] using hpre
  | cons d ds =>
      rw [h] at hpre
      simp [charsOccurs, hpre]

/-- Splitting witnesses transfer to the executable occurrence test. -/
theorem occursStr_of_strContains (pat s : String) (h : StrContains pat s) :
    occursStr pat s = true := by
  obtain ⟨pre, post, rfl⟩ := h
  unfold occursStr
  rw [string_data_append, string_data_append, List.append_assoc]
  exact charsOccurs_append_right _ _ _ (charsOccurs_self_append _ _)

theorem occursStr_append_right (pat s t : String) (h : occursStr pat t = true) :
    occursStr pat (s ++ t) = true := by
  unfold occursStr at h ⊢
  rw [string_data_append]
  exact charsOccurs_append_right _ _ _ h

theorem occursStr_quickBase_of_1 (pat : String) (h : occursStr pat quickBase1 = true) :
    occursStr pat quickBasePrompt = true :=
  occursStr_append_left _ _ _ h

theorem occursStr_quickBase_of_2 (pat : String) (h : occursStr pat quickBase2 = true) :
    occursStr pat quickBasePrompt = true :=
  occursStr_append_right _ _ _ (occursStr_append_left _ _ _ h)

theorem occursStr_quickBase_of_3 (pat : String) (h : occursStr pat quickBase3 = true) :
    occursStr pat quickBasePrompt = true :=
  occursStr_append_right _ _ _ (occursStr_append_right _ _ _
    (occursStr_append_left _ _ _ h))

theorem occursStr_geoBase_of (pat : String) (i : Fin 8)
    (h : occursStr pat (([geoBase1, geoBase2, geoBase3, geoBase4, geoBase5, geoBase6,
      geoBase7, geoBase8].get i)) = true) :
    occursStr pat geoBasePrompt = true := by
  unfold geoBasePrompt
  fin_cases i <;>
    simp only [List.get] at h
  case _ => exact occursStr_append_left _ _ _ h
  case _ => exact occursStr_append_right _ _ _ (occursStr_append_left _ _ _ h)
  case _ => exact occursStr_append_right _ _ _ (occursStr_append_right _ _ _
    (occursStr_append_left _ _ _ h))
  case _ => exact occursStr_append_right _ _ _ (occursStr_append_right _ _ _
    (occursStr_append_right _ _ _ (occursStr_append_left _ _ _ h)))
  case _ => exact occursStr_append_right _ _ _ (occursStr_append_right _ _ _
    (occursStr_append_right _ _ _ (occursStr_append_right _ _ _
      (occursStr_append_left _ _ _ h))))
  case _ => exact occursStr_append_right _ _ _ (occursStr_append_right _ _ _
    (occursStr_append_right _ _ _ (occursStr_append_right _ _ _
      (occursStr_append_right _ _ _ (occursStr_append_left _ _ _ h)))))
  case _ => exact occursStr_append_right _ _ _ (occursStr_append_right _ _ _
    (occursStr_append_right _ _ _ (occursStr_append_right _ _ _
      (occursStr_append_right _ _ _ (occursStr_append_right _ _ _
        (occursStr_append_left _ _ _ h))))))
  case _ => exact occursStr_append_right _ _ _ (occursStr_append_right _ _ _
    (occursStr_append_right _ _ _ (occursStr_append_right _ _ _
      (occursStr_append_right _ _ _ (occursStr_append_right _ _ _
        (occursStr_append_right _ _ _ h))))))

theorem quick_tokens_chunk1 : ∀ t ∈ (["sedimentary", "igneous", "metamorphic",
    "unknown", "other", "massive", "low"] : List String),
    occursStr t quickBase1 = true := by
  intro t ht
  have hall : (["sedimentary", "igneous", "metamorphic", "unknown", "other",
      "massive", "low"] : List String).all (fun t => occursStr t quickBase1) = true := by
    decide
  exact List.all_eq_true.mp hall t ht

theorem quick_tokens_chunk2 : ∀ t ∈ (["tiny", "small", "medium", "large", "boulder",
    "fresh", "slightly_weathered", "moderately_weathered", "heavily_weathered",
    "extremely_weathered", "high", "very_high"] : List String),
    occursStr t quickBase2 = true := by
  intro t ht
  have hall : (["tiny", "small", "medium", "large", "boulder", "fresh",
      "slightly_weathered", "moderately_weathered", "heavily_weathered",
      "extremely_weathered", "high", "very_high"] : List String).all
      (fun t => occursStr t quickBase2) = true := by
    decide
  exact List.all_eq_true.mp hall t ht

theorem quick_tokens_chunk3 : ∀ t ∈ (["very_low"] : List String),
    occursStr t quickBase3 = true := by
  intro t ht
  have hall : (["very_low"] : List String).all (fun t => occursStr t quickBase3) = true := by
    decide
  exact List.all_eq_true.mp hall t ht

/-- Every enumerated quick-schema token occurs in the quick base prompt. -/
theorem quickEnumeratedTokens_in_base :
    ∀ t ∈ quickEnumeratedTokens, occursStr t quickBasePrompt = true := by
  intro t ht
  have hdisp : quickEnumeratedTokens.all (fun t =>
      (["sedimentary", "igneous", "metamorphic", "unknown", "other", "massive",
        "low"] : List String).contains t
      || (["tiny", "small", "medium", "large", "boulder", "fresh",
        "slightly_weathered", "moderately_weathered", "heavily_weathered",
        "extremely_weathered", "high", "very_high"] : List String).contains t
      || (["very_low"] : List String).contains t) = true := by
    decide
  have h := List.all_eq_true.mp hdisp t ht
  simp only [Bool.or_eq_true, List.contains, List.elem_iff] at h
  rcases h with (h | h) | h
  · exact occursStr_quickBase_of_1 t (quick_tokens_chunk1 t h)
  · exact occursStr_quickBase_of_2 t (quick_tokens_chunk2 t h)
  · exact occursStr_quickBase_of_3 t (quick_tokens_chunk3 t h)

theorem geo_tokens_chunk1 : ∀ t ∈ (["unknown", "moderate", "low", "multiple"] : List String),
    occursStr t geoBase1 = true := by
  intro t ht
  have hall : (["unknown", "moderate", "low", "multiple"] : List String).all
      (fun t => occursStr t geoBase1) = true := by decide
  exact List.all_eq_true.mp hall t ht

theorem geo_tokens_chunk2 : ∀ t ∈ (["igneous_volcanic", "igneous_plutonic",
    "igneous_hypabyssal", "sedimentary_clastic", "sedimentary_chemical",
    "sedimentary_organic", "metamorphic_foliated", "metamorphic_nonfoliated",
    "unconsolidated", "sand", "fine", "coarse", "chemical", "massive", "foliated",
    "crystalline"] : List String), occursStr t geoBase2 = true := by
  intro t ht
  have hall : (["igneous_volcanic", "igneous_plutonic", "igneous_hypabyssal",
      "sedimentary_clastic", "sedimentary_chemical", "sedimentary_organic",
      "metamorphic_foliated", "metamorphic_nonfoliated", "unconsolidated", "sand",
      "fine", "coarse", "chemical", "massive", "foliated", "crystalline"] :
      List String).all (fun t => occursStr t geoBase2) = true := by decide
  exact List.all_eq_true.mp hall t ht

theorem geo_tokens_chunk3 : ∀ t ∈ (["clay_silt", "granule", "pebble", "cobble",
    "boulder", "block", "outcrop", "cryptocrystalline", "very_fine", "medium",
    "very_coarse", "pegmatitic", "mixed", "not_applicable", "porphyritic"] :
    List String), occursStr t geoBase3 = true := by
  intro t ht
  have hall : (["clay_silt", "granule", "pebble", "cobble", "boulder", "block",
      "outcrop", "cryptocrystalline", "very_fine", "medium", "very_coarse",
      "pegmatitic", "mixed", "not_applicable", "porphyritic"] : List String).all
      (fun t => occursStr t geoBase3) = true := by decide
  exact List.all_eq_true.mp hall t ht

theorem geo_tokens_chunk4 : ∀ t ∈ (["fresh", "slight", "high", "complete",
    "residual_soil", "mechanical", "biological", "spheroidal", "exfoliation",
    "very_soft", "soft", "hard", "very_hard"] : List String),
    occursStr t geoBase4 = true := by
  intro t ht
  have hall : (["fresh", "slight", "high", "complete", "residual_soil",
      "mechanical", "biological", "spheroidal", "exfoliation", "very_soft", "soft",
      "hard", "very_hard"] : List String).all (fun t => occursStr t geoBase4) = true := by
    decide
  exact List.all_eq_true.mp hall t ht

theorem geo_tokens_chunk5 : ∀ t ∈ (["layered", "vesicular", "amygdaloidal",
    "brecciated", "conglomeratic", "concretionary", "conchoidal", "irregular",
    "splintery", "blocky", "platy", "columnar", "joint_controlled", "unaltered",
    "oxidized", "silicified", "carbonatized", "chloritized", "sericitized",
    "kaolinized", "mineralized"] : List String), occursStr t geoBase5 = true := by
  intro t ht
  have hall : (["layered", "vesicular", "amygdaloidal", "brecciated",
      "conglomeratic", "concretionary", "conchoidal", "irregular", "splintery",
      "blocky", "platy", "columnar", "joint_controlled", "unaltered", "oxidized",
      "silicified", "carbonatized", "chloritized", "sericitized", "kaolinized",
      "mineralized"] : List String).all (fun t => occursStr t geoBase5) = true := by
    decide
  exact List.all_eq_true.mp hall t ht

theorem geo_tokens_chunk6 : ∀ t ∈ (["hydrothermal", "uniform", "mottled", "banded",
    "spotted", "veined", "gradational", "in_situ_outcrop", "displaced_block",
    "float", "talus", "glacial_erratic", "stream_cobble", "artificial", "very_low",
    "very_high"] : List String), occursStr t geoBase6 = true := by
  intro t ht
  have hall : (["hydrothermal", "uniform", "mottled", "banded", "spotted",
      "veined", "gradational", "in_situ_outcrop", "displaced_block", "float",
      "talus", "glacial_erratic", "stream_cobble", "artificial", "very_low",
      "very_high"] : List String).all (fun t => occursStr t geoBase6) = true := by
    decide
  exact List.all_eq_true.mp hall t ht

/-- Every enumerated geological-schema token occurs in the geological base
prompt. -/
theorem geoEnumeratedTokens_in_base :
    ∀ t ∈ geoEnumeratedTokens, occursStr t geoBasePrompt = true := by
  intro t ht
  have hdisp : geoEnumeratedTokens.all (fun t =>
      (["unknown", "moderate", "low", "multiple"] : List String).contains t
      || (["igneous_volcanic", "igneous_plutonic", "igneous_hypabyssal",
        "sedimentary_clastic", "sedimentary_chemical", "sedimentary_organic",
        "metamorphic_foliated", "metamorphic_nonfoliated", "unconsolidated", "sand",
        "fine", "coarse", "chemical", "massive", "foliated", "crystalline"] :
        List String).contains t
      || (["clay_silt", "granule", "pebble", "cobble", "boulder", "block",
        "outcrop", "cryptocrystalline", "very_fine", "medium", "very_coarse",
        "pegmatitic", "mixed", "not_applicable", "porphyritic"] : List String).contains t
      || (["fresh", "slight", "high", "complete", "residual_soil", "mechanical",
        "biological", "spheroidal", "exfoliation", "very_soft", "soft", "hard",
        "very_hard"] : List String).contains t
      || (["layered", "vesicular", "amygdaloidal", "brecciated", "conglomeratic",
        "concretionary", "conchoidal", "irregular", "splintery", "blocky", "platy",
        "columnar", "joint_controlled", "unaltered", "oxidized", "silicified",
        "carbonatized", "chloritized", "sericitized", "kaolinized", "mineralized"] :
        List String).contains t
      || (["hydrothermal", "uniform", "mottled", "banded", "spotted", "veined",
        "gradational", "in_situ_outcrop", "displaced_block", "float", "talus",
        "glacial_erratic", "stream_cobble", "artificial", "very_low", "very_high"] :
        List String).contains t) = true := by
    decide
  have h := List.all_eq_true.mp hdisp t ht
  simp only [Bool.or_eq_true, List.contains, List.elem_iff] at h
  rcases h with ((((h | h) | h) | h) | h) | h
  · exact occursStr_geoBase_of t 0 (geo_tokens_chunk1 t h)
  · exact occursStr_geoBase_of t 1 (geo_tokens_chunk2 t h)
  · exact occursStr_geoBase_of t 2 (geo_tokens_chunk3 t h)
  · exact occursStr_geoBase_of t 3 (geo_tokens_chunk4 t h)
  · exact occursStr_geoBase_of t 4 (geo_tokens_chunk5 t h)
  · exact occursStr_geoBase_of t 5 (geo_tokens_chunk6 t h)

/-- Occurrence in the quick base prompt survives prompt assembly, for either
location mode. -/
theorem occursStr_quick_prompt (pat : String) (loc : Option String) (ul : Bool)
    (h : occursStr pat quickBasePrompt = true) :
    occursStr pat (analyze_rocks_prompt loc ul) = true := by
  unfold analyze_rocks_prompt
  split
  · exact occursStr_append_left _ _ _ (occursStr_append_left _ _ _
      (occursStr_append_left _ _ _ h))
  · exact occursStr_append_left _ _ _ h

/-- Occurrence in the geological base prompt survives prompt assembly, for
either location mode. -/
theorem occursStr_geo_prompt (pat : String) (loc : Option String) (ul : Bool)
    (h : occursStr pat geoBasePrompt = true) :
    occursStr pat (analyze_rocks_geological_prompt loc ul) = true := by
  unfold analyze_rocks_geological_prompt
  split
  · exact occursStr_append_left _ _ _ (occursStr_append_left _ _ _
      (occursStr_append_left _ _ _ h))
  · exact occursStr_append_left _ _ _ h

/-- The quick no-location prompt, however the location argument looks, is one
fixed string. -/
theorem quick_prompt_no_loc (location : Option String) (use_location : Bool)
    (h : (pyTruthyStr location && use_location) = false) :
    analyze_rocks_prompt location use_location = quickBasePrompt ++ quickNoLocBlock := by
  unfold analyze_rocks_prompt
  rw [h]
  simp

/-- The geological no-location prompt is likewise fixed. -/
theorem geo_prompt_no_loc (location : Option String) (use_location : Bool)
    (h : (pyTruthyStr location && use_location) = false) :
    analyze_rocks_geological_prompt location use_location = geoBasePrompt ++ geoNoLocBlock := by
  unfold analyze_rocks_geological_prompt
  rw [h]
  simp

/-- Shape of the quick with-location prompt. -/
theorem quick_prompt_with_loc (s : String) (hs : s.isEmpty = false) :
    analyze_rocks_prompt (some s) true
      = quickBasePrompt ++ quickLocPre ++ s ++ quickLocPost := by
  unfold analyze_rocks_prompt
  simp [pyTruthyStr, hs]

/-- Shape of the geological with-location prompt. -/
theorem geo_prompt_with_loc (s : String) (hs : s.isEmpty = false) :
    analyze_rocks_geological_prompt (some s) true
      = geoBasePrompt ++ geoLocPre ++ s ++ geoLocPost := by
  unfold analyze_rocks_geological_prompt
  simp [pyTruthyStr, hs]

/-- The quick no-location prompt does not contain `"foreground"`; established
segment by segment across the chunked template. -/
theorem foreground_not_in_quick_no_loc :
    occursStr "foreground" (quickBasePrompt ++ quickNoLocBlock) = false := by
  unfold occursStr
  rw [string_data_append]
  have hbase : quickBasePrompt.data
      = quickBase1.data ++ (quickBase2.data ++ (quickBase3.data
        ++ (("Location" : String).data ++ quickBase4.data))) := by
    simp [quickBasePrompt, string_data_append]
  rw [hbase]
  rw [List.append_assoc, List.append_assoc, List.append_assoc, List.append_assoc]
  apply charsOccurs_append_eq_false
  · decide
  · apply charsOccurs_append_eq_false
    · decide
    · apply charsOccurs_append_eq_false
      · decide
      · apply charsOccurs_append_eq_false
        · decide
        · apply charsOccurs_append_eq_false
          · decide
          · decide

/-- C3 (amended). The claim holds for every categorical field except those the
prompts never enumerate: the quick prompt omits the whole `position`
vocabulary, and the geological prompt omits `weathering_type`'s `"none"`,
`fracture_type`'s `"none_visible"`, `alteration_type`'s `"metamorphosed"`,
`geological_context`'s `"unknown_context"`, and every `image_position` token
but `"multiple"`. For all remaining tokens, every prompt the builders can
produce contains the token verbatim. -/
theorem claim_C3_amended (location : Option String) (use_location : Bool) :
    (∀ tok ∈ quickEnumeratedTokens,
        occursStr tok (analyze_rocks_prompt location use_location) = true)
    ∧ (∀ tok ∈ geoEnumeratedTokens,
        occursStr tok (analyze_rocks_geological_prompt location use_location) = true) := by
  constructor
  · intro tok htok
    exact occursStr_quick_prompt tok location use_location
      (quickEnumeratedTokens_in_base tok htok)
  · intro tok htok
    exact occursStr_geo_prompt tok location use_location
      (geoEnumeratedTokens_in_base tok htok)

/-- C3 is false as stated: `"foreground"` is a permitted token of the quick
schema's `Literal`-typed `position` field, yet the prompt built by
`analyze_rocks` (here with no location) does not contain it. -/
theorem claim_C3_counterexample :
    ("position", ["foreground", "midground", "background", "left", "right",
      "center", "top", "bottom", "multiple"]) ∈ quickVocab
    ∧ "foreground" ∈ ["foreground", "midground", "background", "left", "right",
      "center", "top", "bottom", "multiple"]
    ∧ occursStr "foreground" (analyze_rocks_prompt none true) = false := by
  refine ⟨by decide, by decide, ?_⟩
  have h := quick_prompt_no_loc none true (by decide)
  rw [h]
  exact foreground_not_in_quick_no_loc

/-- C3 witness: a concrete enumerated token, checked in a concretely built
prompt. -/
theorem claim_C3_witness :
    "sedimentary" ∈ quickEnumeratedTokens
    ∧ occursStr "sedimentary" (analyze_rocks_prompt (some "Iceland") true) = true
    ∧ "very_hard" ∈ geoEnumeratedTokens
    ∧ occursStr "very_hard" (analyze_rocks_geological_prompt none false) = true := by
  refine ⟨by decide, ?_, by decide, ?_⟩
  · exact (claim_C3_amended (some "Iceland") true).1 "sedimentary" (by decide)
  · exact (claim_C3_amended none false).2 "very_hard" (by decide)

/-- C2 (amended). When the location is unused (flag unset, or the location
absent or empty) the built prompt is one fixed string that does not depend on
the location argument at all — so it can only contain the location string if
that string happens to occur in the fixed template. When the location is used
(non-empty location, flag set) the built prompt contains the location string
at least once; the original "exactly once" fails for location strings that
also occur in the template. Both variants behave alike. -/
theorem claim_C2_amended (location : Option String) (use_location : Bool) :
    ((pyTruthyStr location && use_location) = false →
        analyze_rocks_prompt location use_location = quickBasePrompt ++ quickNoLocBlock
        ∧ analyze_rocks_geological_prompt location use_location
            = geoBasePrompt ++ geoNoLocBlock)
    ∧ (∀ s, location = some s → s.isEmpty = false → use_location = true →
        StrContains s (analyze_rocks_prompt location use_location)
        ∧ StrContains s (analyze_rocks_geological_prompt location use_location)) := by
  constructor
  · intro h
    exact ⟨quick_prompt_no_loc location use_location h,
      geo_prompt_no_loc location use_location h⟩
  · rintro s rfl hs rfl
    refine ⟨⟨quickBasePrompt ++ quickLocPre, quickLocPost, ?_⟩,
      ⟨geoBasePrompt ++ geoLocPre, geoLocPost, ?_⟩⟩
    · rw [quick_prompt_with_loc s hs]
    · rw [geo_prompt_with_loc s hs]

/-- C2 is false as stated, in both directions. With `use_location = false` and
location `"a"`, the built prompt (a fixed template) does contain `"a"`; and
with `use_location = true` and location `"Location"`, the built prompt contains
`"Location"` twice (the template's `position: Location in image frame` line
plus the interpolated location), not exactly once. -/
theorem claim_C2_counterexample :
    occursStr "a" (analyze_rocks_prompt (some "a") false) = true
    ∧ countStr "Location" (analyze_rocks_prompt (some "Location") true) ≠ 1 := by
  constructor
  · decide
  · have hform : analyze_rocks_prompt (some "Location") true
        = quickBasePrompt ++ quickLocPre ++ "Location" ++ quickLocPost :=
      quick_prompt_with_loc "Location" (by decide)
    have h2 : 2 ≤ countStr "Location" (analyze_rocks_prompt (some "Location") true) := by
      rw [hform]
      unfold countStr
      simp only [string_data_append, quickBasePrompt, List.append_assoc]
      have hinner : 1 ≤ charsCount ('L' :: (['o', 'c', 'a', 't', 'i', 'o', 'n'] : List Char))
          (('L' :: (['o', 'c', 'a', 't', 'i', 'o', 'n'] : List Char)) ++ quickLocPost.data) := by
        have := charsCount_self_append 'L' (['o', 'c', 'a', 't', 'i', 'o', 'n'] : List Char)
          quickLocPost.data
        omega
      have hmid : 1 ≤ charsCount ('L' :: (['o', 'c', 'a', 't', 'i', 'o', 'n'] : List Char))
          (quickLocPre.data ++ (('L' :: (['o', 'c', 'a', 't', 'i', 'o', 'n'] : List Char))
            ++ quickLocPost.data)) :=
        le_trans hinner (charsCount_le_append _ _ _)
      have hmid2 : 1 ≤ charsCount ('L' :: (['o', 'c', 'a', 't', 'i', 'o', 'n'] : List Char))
          (quickBase4.data ++ (quickLocPre.data
            ++ (('L' :: (['o', 'c', 'a', 't', 'i', 'o', 'n'] : List Char))
              ++ quickLocPost.data))) :=
        le_trans hmid (charsCount_le_append _ _ _)
      have hP : 2 ≤ charsCount ('L' :: (['o', 'c', 'a', 't', 'i', 'o', 'n'] : List Char))
          (('L' :: (['o', 'c', 'a', 't', 'i', 'o', 'n'] : List Char))
            ++ (quickBase4.data ++ (quickLocPre.data
              ++ (('L' :: (['o', 'c', 'a', 't', 'i', 'o', 'n'] : List Char))
                ++ quickLocPost.data)))) := by
        have := charsCount_self_append 'L' (['o', 'c', 'a', 't', 'i', 'o', 'n'] : List Char)
          (quickBase4.data ++ (quickLocPre.data
            ++ (('L' :: (['o', 'c', 'a', 't', 'i', 'o', 'n'] : List Char))
              ++ quickLocPost.data)))
        omega
      have h3 : 2 ≤ charsCount ('L' :: (['o', 'c', 'a', 't', 'i', 'o', 'n'] : List Char))
          (quickBase3.data ++ (('L' :: (['o', 'c', 'a', 't', 'i', 'o', 'n'] : List Char))
            ++ (quickBase4.data ++ (quickLocPre.data
              ++ (('L' :: (['o', 'c', 'a', 't', 'i', 'o', 'n'] : List Char))
                ++ quickLocPost.data))))) :=
        le_trans hP (charsCount_le_append _ _ _)
      have h4 : 2 ≤ charsCount ('L' :: (['o', 'c', 'a', 't', 'i', 'o', 'n'] : List Char))
          (quickBase2.data ++ (quickBase3.data
            ++ (('L' :: (['o', 'c', 'a', 't', 'i', 'o', 'n'] : List Char))
              ++ (quickBase4.data ++ (quickLocPre.data
                ++ (('L' :: (['o', 'c', 'a', 't', 'i', 'o', 'n'] : List Char))
                  ++ quickLocPost.data)))))) :=
        le_trans h3 (charsCount_le_append _ _ _)
      exact le_trans h4 (charsCount_le_append _ _ _)
    omega

/-- C2 witness: the amended statement applied to concrete inputs. -/
theorem claim_C2_witness :
    ((pyTruthyStr (some "Reykjavik") && false) = false
      → analyze_rocks_prompt (some "Reykjavik") false = quickBasePrompt ++ quickNoLocBlock
        ∧ analyze_rocks_geological_prompt (some "Reykjavik") false
            = geoBasePrompt ++ geoNoLocBlock)
    ∧ (StrContains "Reykjavik" (analyze_rocks_prompt (some "Reykjavik") true)
        ∧ StrContains "Reykjavik" (analyze_rocks_geological_prompt (some "Reykjavik") true)) :=
  ⟨(claim_C2_amended (some "Reykjavik") false).1,
   (claim_C2_amended (some "Reykjavik") true).2 "Reykjavik" rfl (by decide) rfl⟩

/-- C1 (amended). In compare mode, when at least one primary analysis returns
no result, the quick variant's comparator (`generate_comparison`) is not
invoked — but the quick `main` then displays neither result, even when exactly
one analysis succeeded. The geological variant (which has no comparator in
compare mode) does display whichever single truthy result succeeded. -/
theorem claim_C1_amended (withLoc withoutLoc comparison : Option Value)
    (h : withLoc = none ∨ withoutLoc = none) :
    (compare_analyses withLoc withoutLoc comparison).2 = false
    ∧ quickMainCompareDisplayed withLoc withoutLoc comparison = []
    ∧ (∀ v, withLoc = some v → v.pyTruthy = true → withoutLoc = none →
        rockMainCompareDisplayed withLoc withoutLoc = [v])
    ∧ (∀ v, withoutLoc = some v → v.pyTruthy = true → withLoc = none →
        rockMainCompareDisplayed withLoc withoutLoc = [v]) := by
  rcases h with h | h <;> subst h
  · refine ⟨by simp [compare_analyses, pyTruthyOpt], ?_, ?_, ?_⟩
    · simp [quickMainCompareDisplayed, compare_analyses, pyTruthyOpt]
    · intro v hv
      exact absurd hv (by simp)
    · rintro v rfl hv _
      simp [rockMainCompareDisplayed, hv]
  · refine ⟨by simp [compare_analyses, pyTruthyOpt], ?_, ?_, ?_⟩
    · simp [quickMainCompareDisplayed, compare_analyses, pyTruthyOpt]
    · rintro v rfl hv _
      simp [rockMainCompareDisplayed, hv]
    · intro v hv
      exact absurd hv (by simp)

/-- C1 is false as stated: with a truthy with-location result and a failed
without-location analysis, the quick `main` displays nothing at all — the lone
successful analysis is not reported. -/
theorem claim_C1_counterexample :
    (Value.obj [("summary", Value.obj [])]).pyTruthy = true
    ∧ quickMainCompareDisplayed (some (Value.obj [("summary", Value.obj [])])) none none
        = [] := by
  exact ⟨rfl, rfl⟩

/-- C1 witness: the amended statement at a concrete failed second analysis. -/
theorem claim_C1_witness :
    (compare_analyses (some (Value.obj [("summary", Value.obj [])])) none none).2 = false
    ∧ quickMainCompareDisplayed (some (Value.obj [("summary", Value.obj [])])) none none = []
    ∧ rockMainCompareDisplayed (some (Value.obj [("summary", Value.obj [])])) none
        = [Value.obj [("summary", Value.obj [])]] := by
  have h := claim_C1_amended (some (Value.obj [("summary", Value.obj [])])) none none
    (Or.inr rfl)
  exact ⟨h.1, h.2.1, h.2.2.1 (Value.obj [("summary", Value.obj [])]) rfl rfl rfl⟩

/-- C4. A model response whose text fails JSON parsing makes both invokers
return `None` (the exception is caught inside the invoker), and an invoker
call leaves every previously obtained result exactly as it was. -/
theorem claim_C4 (location : Option String) (use_location : Bool) (prior : List Value) :
    analyze_rocks_result none location use_location = none
    ∧ analyze_rocks_geological_result none location use_location = none
    ∧ analyzeStepQuick prior none location use_location = (prior, none)
    ∧ analyzeStepGeo prior none location use_location = (prior, none) :=
  ⟨rfl, rfl, rfl, rfl⟩

/-- C5. On a successful call whose parsed result carries a dict `summary`, the
invoker returns the result with only the summary's location-mode field
rewritten: it equals the supplied location exactly when a non-empty location
was supplied and `use_location` was set, and the fixed marker otherwise; every
other summary field and every other top-level field is unchanged. -/
theorem claim_C5 (fs sfs : List (String × Value)) (location : Option String)
    (use_location : Bool) (h : lookupField fs "summary" = some (Value.obj sfs)) :
    (∃ sfs2,
      analyze_rocks_result (some (Value.obj fs)) location use_location
        = some (Value.obj (setField fs "summary" (Value.obj sfs2)))
      ∧ lookupField sfs2 "location_context"
          = some (Value.str (if pyTruthyStr location && use_location then
              location.getD "" else "No location context used"))
      ∧ (∀ k, k ≠ "location_context" → lookupField sfs2 k = lookupField sfs k)
      ∧ (∀ k, k ≠ "summary" →
          lookupField (setField fs "summary" (Value.obj sfs2)) k = lookupField fs k))
    ∧ (∃ sfs2,
      analyze_rocks_geological_result (some (Value.obj fs)) location use_location
        = some (Value.obj (setField fs "summary" (Value.obj sfs2)))
      ∧ lookupField sfs2 "location_used"
          = some (Value.str (if pyTruthyStr location && use_location then
              location.getD "" else "No location context"))
      ∧ (∀ k, k ≠ "location_used" → lookupField sfs2 k = lookupField sfs k)
      ∧ (∀ k, k ≠ "summary" →
          lookupField (setField fs "summary" (Value.obj sfs2)) k = lookupField fs k)) := by
  constructor
  · refine ⟨setField sfs "location_context"
      (Value.str (quickLocationContext location use_location)), ?_, ?_, ?_, ?_⟩
    · simp [analyze_rocks_result, setSummaryField, h]
    · simpa [quickLocationContext] using
        lookupField_setField_same sfs "location_context"
          (Value.str (quickLocationContext location use_location))
    · intro k hk
      exact lookupField_setField_other sfs "location_context" k _ hk
    · intro k hk
      exact lookupField_setField_other fs "summary" k _ hk
  · refine ⟨setField sfs "location_used"
      (Value.str (geoLocationUsed location use_location)), ?_, ?_, ?_, ?_⟩
    · simp [analyze_rocks_geological_result, setSummaryField, h]
    · simpa [geoLocationUsed] using
        lookupField_setField_same sfs "location_used"
          (Value.str (geoLocationUsed location use_location))
    · intro k hk
      exact lookupField_setField_other sfs "location_used" k _ hk
    · intro k hk
      exact lookupField_setField_other fs "summary" k _ hk

/-- C5 witness: the statement at a concrete parsed result with a summary. -/
theorem claim_C5_witness :
    lookupField [("summary", Value.obj [("total_rocks", Value.num 1)])] "summary"
      = some (Value.obj [("total_rocks", Value.num 1)])
    ∧ ((∃ sfs2,
      analyze_rocks_result
          (some (Value.obj [("summary", Value.obj [("total_rocks", Value.num 1)])]))
          (some "Alps") true
        = some (Value.obj (setField [("summary", Value.obj [("total_rocks", Value.num 1)])]
            "summary" (Value.obj sfs2)))
      ∧ lookupField sfs2 "location_context"
          = some (Value.str (if pyTruthyStr (some "Alps") && true then
              (some "Alps" : Option String).getD "" else "No location context used"))
      ∧ (∀ k, k ≠ "location_context" →
          lookupField sfs2 k = lookupField [("total_rocks", Value.num 1)] k)
      ∧ (∀ k, k ≠ "summary" →
          lookupField (setField [("summary", Value.obj [("total_rocks", Value.num 1)])]
            "summary" (Value.obj sfs2)) k
          = lookupField [("summary", Value.obj [("total_rocks", Value.num 1)])] k))) :=
  ⟨rfl, (claim_C5 [("summary", Value.obj [("total_rocks", Value.num 1)])]
    [("total_rocks", Value.num 1)] (some "Alps") true rfl).1⟩

/-- C6. With the credential absent from the environment, both analysis
functions raise the configuration error before loading the image or issuing
any network call (no effects at all), and the entry points write no file. -/
theorem claim_C6 (parsed : Option Value) (location : Option String)
    (use_location save : Bool) (baseName : String) :
    analyze_rocks_run none parsed location use_location
      = ([], Except.error "GEMINI_API_KEY not found in .env file")
    ∧ analyze_rocks_geological_run none parsed location use_location
      = ([], Except.error "GEMINI_API_KEY not found in .env file")
    ∧ quickMainSingleFiles (analyze_rocks_run none parsed location use_location).2
        save baseName = []
    ∧ rockMainSingleFiles (analyze_rocks_geological_run none parsed location use_location).2
        save baseName = [] :=
  ⟨rfl, rfl, rfl, rfl⟩

/-- C10. The geological compare mode persists only when both primary analyses
delivered truthy results: if either is `None`, no file is written; files are
only ever written when both results exist and are truthy; and a lone truthy
success is displayed yet never persisted. -/
theorem claim_C10 (withLoc withoutLoc : Option Value) (save : Bool) (baseName : String) :
    ((withLoc = none ∨ withoutLoc = none) →
        rockMainCompareFiles withLoc withoutLoc save baseName = [])
    ∧ (rockMainCompareFiles withLoc withoutLoc save baseName ≠ [] →
        (∃ v, withLoc = some v ∧ v.pyTruthy = true)
        ∧ (∃ v, withoutLoc = some v ∧ v.pyTruthy = true))
    ∧ (∀ v, withLoc = none → withoutLoc = some v → v.pyTruthy = true →
        rockMainCompareDisplayed withLoc withoutLoc = [v]
        ∧ rockMainCompareFiles withLoc withoutLoc save baseName = [])
    ∧ (∀ v, withoutLoc = none → withLoc = some v → v.pyTruthy = true →
        rockMainCompareDisplayed withLoc withoutLoc = [v]
        ∧ rockMainCompareFiles withLoc withoutLoc save baseName = []) := by
  refine ⟨?_, ?_, ?_, ?_⟩
  · rintro (rfl | rfl)
    · cases withoutLoc <;> simp [rockMainCompareFiles]
    · cases withLoc <;> simp [rockMainCompareFiles]
  · intro hne
    cases withLoc with
    | none => exact absurd (by simp [rockMainCompareFiles]) hne
    | some w =>
        cases withoutLoc with
        | none => exact absurd (by simp [rockMainCompareFiles]) hne
        | some wo =>
            by_cases hw : w.pyTruthy = true
            · by_cases hwo : wo.pyTruthy = true
              · exact ⟨⟨w, rfl, hw⟩, ⟨wo, rfl, hwo⟩⟩
              · simp only [Bool.not_eq_true] at hwo
                exact absurd (by simp [rockMainCompareFiles, hwo]) hne
            · simp only [Bool.not_eq_true] at hw
              exact absurd (by simp [rockMainCompareFiles, hw]) hne
  · rintro v rfl rfl hv
    exact ⟨by simp [rockMainCompareDisplayed, hv], by simp [rockMainCompareFiles]⟩
  · rintro v rfl rfl hv
    exact ⟨by simp [rockMainCompareDisplayed, hv], by simp [rockMainCompareFiles]⟩

/-- C10 witness: a lone successful without-location analysis is displayed and
nothing is saved. -/
theorem claim_C10_witness :
    rockMainCompareDisplayed none (some (Value.obj [("rocks", Value.arr [])]))
      = [Value.obj [("rocks", Value.arr [])]]
    ∧ rockMainCompareFiles none (some (Value.obj [("rocks", Value.arr [])])) true "img" = [] :=
  (claim_C10 none (some (Value.obj [("rocks", Value.arr [])])) true "img").2.2.1
    (Value.obj [("rocks", Value.arr [])]) rfl rfl rfl

theorem numOpt_getD (l : Option Value) (d : Int) (h : numOpt l = true) :
    ∃ m, l.getD (Value.num d) = Value.num m := by
  cases l with
  | none => exact ⟨d, rfl⟩
  | some v => cases v with
      | num n => exact ⟨n, rfl⟩
      | str s => simp [numOpt] at h
      | arr es => simp [numOpt] at h
      | obj fs => simp [numOpt] at h

theorem pySlice_ok_of_sliceable (v : Value) (n : Nat)
    (h : sliceableOpt (some v) = true) (ht : v.pyTruthy = true) :
    ∃ w, pySlice v n = Except.ok w := by
  cases v with
  | str s => exact ⟨_, rfl⟩
  | arr es => exact ⟨_, rfl⟩
  | num m => simp [sliceableOpt, ht] at h
  | obj fs => simp [sliceableOpt, ht] at h

theorem displayRockQuick_ok (i : Nat) (rock : Value)
    (h : wellShapedRockQuick rock = true) :
    ∃ out, displayRockQuick i rock = Except.ok out := by
  cases rock with
  | str s => simp [wellShapedRockQuick] at h
  | num n => simp [wellShapedRockQuick] at h
  | arr es => simp [wellShapedRockQuick] at h
  | obj rf =>
      simp only [wellShapedRockQuick, Bool.and_eq_true] at h
      obtain ⟨⟨⟨⟨⟨_hsize, hcm⟩, hcv⟩, hcol⟩, htex⟩, hnot⟩ := h
      obtain ⟨m1, hm1⟩ := numOpt_getD _ 0 hcm
      obtain ⟨m2, hm2⟩ := numOpt_getD _ 0 hcv
      unfold displayRockQuick
      simp only [pyDictGet, pyDictGetOpt, hm1, hm2, pyFormat0f, pyFormat2f,
        bind, Except.bind, pure, Except.pure]
      cases hcl : lookupField rf "color_description" with
      | none =>
          cases htx : lookupField rf "texture_details" with
          | none =>
              cases hnt : lookupField rf "geological_notes" with
              | none => exact ⟨_, rfl⟩
              | some nv =>
                  rw [hnt] at hnot
                  by_cases hvt : nv.pyTruthy = true
                  · obtain ⟨w, hw⟩ := pySlice_ok_of_sliceable nv 100 hnot hvt
                    simp [hvt, hw]
                  · simp only [Bool.not_eq_true] at hvt
                    simp [hvt]
          | some tv =>
              rw [htx] at htex
              by_cases hvt : tv.pyTruthy = true
              · obtain ⟨w, hw⟩ := pySlice_ok_of_sliceable tv 80 htex hvt
                cases hnt : lookupField rf "geological_notes" with
                | none => simp [hvt, hw]
                | some nv =>
                    rw [hnt] at hnot
                    by_cases hvn : nv.pyTruthy = true
                    · obtain ⟨w2, hw2⟩ := pySlice_ok_of_sliceable nv 100 hnot hvn
                      simp [hvt, hw, hvn, hw2]
                    · simp only [Bool.not_eq_true] at hvn
                      simp [hvt, hw, hvn]
              · simp only [Bool.not_eq_true] at hvt
                cases hnt : lookupField rf "geological_notes" with
                | none => simp [hvt]
                | some nv =>
                    rw [hnt] at hnot
                    by_cases hvn : nv.pyTruthy = true
                    · obtain ⟨w2, hw2⟩ := pySlice_ok_of_sliceable nv 100 hnot hvn
                      simp [hvt, hvn, hw2]
                    · simp only [Bool.not_eq_true] at hvn
                      simp [hvt, hvn]
      | some cv =>
          rw [hcl] at hcol
          by_cases hvc : cv.pyTruthy = true
          · obtain ⟨wc, hwc⟩ := pySlice_ok_of_sliceable cv 80 hcol hvc
            cases htx : lookupField rf "texture_details" with
            | none =>
                cases hnt : lookupField rf "geological_notes" with
                | none => simp [hvc, hwc]
                | some nv =>
                    rw [hnt] at hnot
                    by_cases hvn : nv.pyTruthy = true
                    · obtain ⟨w2, hw2⟩ := pySlice_ok_of_sliceable nv 100 hnot hvn
                      simp [hvc, hwc, hvn, hw2]
                    · simp only [Bool.not_eq_true] at hvn
                      simp [hvc, hwc, hvn]
            | some tv =>
                rw [htx] at htex
                by_cases hvt : tv.pyTruthy = true
                · obtain ⟨wt, hwt⟩ := pySlice_ok_of_sliceable tv 80 htex hvt
                  cases hnt : lookupField rf "geological_notes" with
                  | none => simp [hvc, hwc, hvt, hwt]
                  | some nv =>
                      rw [hnt] at hnot
                      by_cases hvn : nv.pyTruthy = true
                      · obtain ⟨w2, hw2⟩ := pySlice_ok_of_sliceable nv 100 hnot hvn
                        simp [hvc, hwc, hvt, hwt, hvn, hw2]
                      · simp only [Bool.not_eq_true] at hvn
                        simp [hvc, hwc, hvt, hwt, hvn]
                · simp only [Bool.not_eq_true] at hvt
                  cases hnt : lookupField rf "geological_notes" with
                  | none => simp [hvc, hwc, hvt]
                  | some nv =>
                      rw [hnt] at hnot
                      by_cases hvn : nv.pyTruthy = true
                      · obtain ⟨w2, hw2⟩ := pySlice_ok_of_sliceable nv 100 hnot hvn
                        simp [hvc, hwc, hvt, hvn, hw2]
                      · simp only [Bool.not_eq_true] at hvn
                        simp [hvc, hwc, hvt, hvn]
          · simp only [Bool.not_eq_true] at hvc
            cases htx : lookupField rf "texture_details" with
            | none =>
                cases hnt : lookupField rf "geological_notes" with
                | none => simp [hvc]
                | some nv =>
                    rw [hnt] at hnot
                    by_cases hvn : nv.pyTruthy = true
                    · obtain ⟨w2, hw2⟩ := pySlice_ok_of_sliceable nv 100 hnot hvn
                      simp [hvc, hvn, hw2]
                    · simp only [Bool.not_eq_true] at hvn
                      simp [hvc, hvn]
            | some tv =>
                rw [htx] at htex
                by_cases hvt : tv.pyTruthy = true
                · obtain ⟨wt, hwt⟩ := pySlice_ok_of_sliceable tv 80 htex hvt
                  cases hnt : lookupField rf "geological_notes" with
                  | none => simp [hvc, hvt, hwt]
                  | some nv =>
                      rw [hnt] at hnot
                      by_cases hvn : nv.pyTruthy = true
                      · obtain ⟨w2, hw2⟩ := pySlice_ok_of_sliceable nv 100 hnot hvn
                        simp [hvc, hvt, hwt, hvn, hw2]
                      · simp only [Bool.not_eq_true] at hvn
                        simp [hvc, hvt, hwt, hvn]
                · simp only [Bool.not_eq_true] at hvt
                  cases hnt : lookupField rf "geological_notes" with
                  | none => simp [hvc, hvt]
                  | some nv =>
                      rw [hnt] at hnot
                      by_cases hvn : nv.pyTruthy = true
                      · obtain ⟨w2, hw2⟩ := pySlice_ok_of_sliceable nv 100 hnot hvn
                        simp [hvc, hvt, hvn, hw2]
                      · simp only [Bool.not_eq_true] at hvn
                        simp [hvc, hvt, hvn]

theorem guardedPlainLine_ok (rf : List (String × Value)) (key label : String) :
    ∃ out, guardedPlainLine (Value.obj rf) key label = Except.ok out := by
  unfold guardedPlainLine
  simp only [pyDictGetOpt, bind, Except.bind]
  cases hl : lookupField rf key with
  | none => exact ⟨_, rfl⟩
  | some mv =>
      by_cases hv : mv.pyTruthy = true
      · simp [hv, pySubscript, hl, pure, Except.pure]
      · simp only [Bool.not_eq_true] at hv
        simp only [hv]
        exact ⟨[], rfl⟩

theorem guardedSlicedLine_ok (rf : List (String × Value)) (key label : String) (n : Nat)
    (h : sliceableOpt (lookupField rf key) = true) :
    ∃ out, guardedSlicedLine (Value.obj rf) key label n = Except.ok out := by
  unfold guardedSlicedLine
  simp only [pyDictGetOpt, bind, Except.bind]
  cases hl : lookupField rf key with
  | none => exact ⟨_, rfl⟩
  | some mv =>
      rw [hl] at h
      by_cases hv : mv.pyTruthy = true
      · obtain ⟨w, hw⟩ := pySlice_ok_of_sliceable mv n h hv
        simp [hv, hw, pure, Except.pure]
      · simp only [Bool.not_eq_true] at hv
        simp only [hv]
        exact ⟨[], rfl⟩

theorem displayRockGeo_ok (i : Nat) (rock : Value)
    (h : wellShapedRockGeo rock = true) :
    ∃ out, displayRockGeo i rock = Except.ok out := by
  cases rock with
  | str s => simp [wellShapedRockGeo] at h
  | num n => simp [wellShapedRockGeo] at h
  | arr es => simp [wellShapedRockGeo] at h
  | obj rf =>
      simp only [wellShapedRockGeo, Bool.and_eq_true] at h
      obtain ⟨⟨hcm, hcv⟩, hnot⟩ := h
      obtain ⟨m1, hm1⟩ := numOpt_getD _ 0 hcm
      obtain ⟨m2, hm2⟩ := numOpt_getD _ 0 hcv
      obtain ⟨x1, hx1⟩ := guardedPlainLine_ok rf "mineral_assemblage" "Minerals: "
      obtain ⟨x2, hx2⟩ := guardedSlicedLine_ok rf "field_notes" "Field notes: " 200 hnot
      obtain ⟨x3, hx3⟩ := guardedPlainLine_ok rf "likely_formation" "Formation: "
      unfold displayRockGeo
      simp [pyDictGet, hm1, hm2, pyFormat0f, pyFormat2f, hx1, hx2, hx3,
        bind, Except.bind, pure, Except.pure]

theorem displayRocksQuickLoop_ok (rocks : List Value) (i : Nat)
    (h : rocks.all wellShapedRockQuick = true) :
    ∃ out, displayRocksQuickLoop i rocks = Except.ok out := by
  induction rocks generalizing i with
  | nil => exact ⟨[], rfl⟩
  | cons rock rest ih =>
      simp only [List.all_cons, Bool.and_eq_true] at h
      obtain ⟨w, hw⟩ := displayRockQuick_ok i rock h.1
      obtain ⟨ws, hws⟩ := ih (i + 1) h.2
      refine ⟨w ++ ws, ?_⟩
      unfold displayRocksQuickLoop
      simp [hw, hws, bind, Except.bind, pure, Except.pure]

theorem displayRocksGeoLoop_ok (rocks : List Value) (i : Nat)
    (h : rocks.all wellShapedRockGeo = true) :
    ∃ out, displayRocksGeoLoop i rocks = Except.ok out := by
  induction rocks generalizing i with
  | nil => exact ⟨[], rfl⟩
  | cons rock rest ih =>
      simp only [List.all_cons, Bool.and_eq_true] at h
      obtain ⟨w, hw⟩ := displayRockGeo_ok i rock h.1
      obtain ⟨ws, hws⟩ := ih (i + 1) h.2
      refine ⟨w ++ ws, ?_⟩
      unfold displayRocksGeoLoop
      simp [hw, hws, bind, Except.bind, pure, Except.pure]

theorem sizeCountsLoop_ok (rocks : List Value) (counts : List (Value × Nat))
    (h : rocks.all wellShapedRockQuick = true) :
    ∃ out, sizeCountsLoop rocks counts = Except.ok out := by
  induction rocks generalizing counts with
  | nil => exact ⟨counts, rfl⟩
  | cons rock rest ih =>
      simp only [List.all_cons, Bool.and_eq_true] at h
      obtain ⟨hr, hrest⟩ := h
      cases rock with
      | str s => simp [wellShapedRockQuick] at hr
      | num n => simp [wellShapedRockQuick] at hr
      | arr es => simp [wellShapedRockQuick] at hr
      | obj rf =>
          simp only [wellShapedRockQuick, Bool.and_eq_true] at hr
          obtain ⟨⟨⟨⟨⟨hsize, _⟩, _⟩, _⟩, _⟩, _⟩ := hr
          obtain ⟨out, hout⟩ := ih (bumpCount counts
            ((lookupField rf "size_category").getD (Value.str "unknown"))) hrest
          refine ⟨out, ?_⟩
          unfold sizeCountsLoop
          simp [pyDictGet, hsize, hout, bind, Except.bind]

theorem guardedIterBlock_ok (sfs : List (String × Value)) (key header mark : String)
    (h : iterableOpt (lookupField sfs key) = true) :
    ∃ out, guardedIterBlock (Value.obj sfs) key header mark = Except.ok out := by
  unfold guardedIterBlock
  simp only [pyDictGetOpt, bind, Except.bind]
  cases hl : lookupField sfs key with
  | none => exact ⟨_, rfl⟩
  | some rv =>
      rw [hl] at h
      by_cases hv : rv.pyTruthy = true
      · have hiter : ∃ items, pyIter rv = Except.ok items := by
          cases rv with
          | num n => simp [iterableOpt, hv] at h
          | str s => exact ⟨_, rfl⟩
          | arr es => exact ⟨_, rfl⟩
          | obj fs => exact ⟨_, rfl⟩
        obtain ⟨items, hitems⟩ := hiter
        simp [hv, pySubscript, hl, hitems, pure, Except.pure, bind, Except.bind]
      · simp only [Bool.not_eq_true] at hv
        simp only [hv]
        exact ⟨[], rfl⟩

theorem subscriptIfPresent_ok (fs : List (String × Value)) (key : String)
    (mk : Value → List String) :
    ∃ out, subscriptIfPresent (Value.obj fs) key mk = Except.ok out := by
  unfold subscriptIfPresent
  simp only [pyContainsKey, bind, Except.bind]
  cases hl : lookupField fs key with
  | none =>
      simp only [hl, Option.isSome_none, Bool.false_eq_true, if_false]
      exact ⟨[], rfl⟩
  | some v =>
      simp only [hl, Option.isSome_some, if_true, pySubscript, bind, Except.bind]
      exact ⟨mk v, rfl⟩

/-- Success of the quick reporter on well-shaped results. -/
theorem display_results_ok (result : Value) (title : String)
    (h : wellShapedQuickResult result = true) :
    ∃ out, display_results result title = Except.ok out := by
  cases result with
  | str s => simp [wellShapedQuickResult] at h
  | num n => simp [wellShapedQuickResult] at h
  | arr es => simp [wellShapedQuickResult] at h
  | obj fs =>
      simp only [wellShapedQuickResult, Bool.and_eq_true] at h
      obtain ⟨hsum, hrocks⟩ := h
      unfold display_results
      cases hs : lookupField fs "summary" with
      | none =>
          cases hr : lookupField fs "rocks" with
          | none =>
              simp [pyContainsKey, hs, hr, bind, Except.bind, pure, Except.pure]
          | some rv =>
              rw [hr] at hrocks
              cases rv with
              | str s2 => simp at hrocks
              | num n2 => simp at hrocks
              | obj fs2 => simp at hrocks
              | arr rocks =>
                  obtain ⟨ws, hws⟩ := displayRocksQuickLoop_ok rocks 1 hrocks
                  simp [pyContainsKey, hs, hr, pySubscript, pyLen, pyIter, hws,
                    bind, Except.bind, pure, Except.pure]
      | some sv =>
          rw [hs] at hsum
          cases sv with
          | str s2 => simp at hsum
          | num n2 => simp at hsum
          | arr es2 => simp at hsum
          | obj sfs =>
              obtain ⟨m, hm⟩ := numOpt_getD _ 0 hsum
              cases hr : lookupField fs "rocks" with
              | none =>
                  simp [pyContainsKey, hs, hr, pySubscript, pyDictGet, hm,
                    pyFormat2f, bind, Except.bind, pure, Except.pure]
              | some rv =>
                  rw [hr] at hrocks
                  cases rv with
                  | str s2 => simp at hrocks
                  | num n2 => simp at hrocks
                  | obj fs2 => simp at hrocks
                  | arr rocks =>
                      obtain ⟨counts, hcounts⟩ := sizeCountsLoop_ok rocks [] hrocks
                      obtain ⟨ws, hws⟩ := displayRocksQuickLoop_ok rocks 1 hrocks
                      simp [pyContainsKey, hs, hr, pySubscript, pyDictGet, hm,
                        pyFormat2f, pyLen, pyIter, hcounts, hws,
                        bind, Except.bind, pure, Except.pure]

/-- Success of the geological reporter on well-shaped results. -/
theorem display_geological_results_ok (result : Value)
    (h : wellShapedGeoResult result = true) :
    ∃ out, display_geological_results result = Except.ok out := by
  by_cases htr : result.pyTruthy = true
  · cases result with
    | str s => simp [wellShapedGeoResult] at h
    | num n => simp [wellShapedGeoResult] at h
    | arr es => simp [wellShapedGeoResult] at h
    | obj fs =>
        simp only [wellShapedGeoResult, Bool.and_eq_true] at h
        obtain ⟨hsum, hrocks⟩ := h
        obtain ⟨i1, hi1⟩ := subscriptIfPresent_ok fs "geological_interpretation"
          (fun v => ["\n" ++ sep70, "OVERALL GEOLOGICAL INTERPRETATION", sep70, pyToStr v])
        obtain ⟨i2, hi2⟩ := subscriptIfPresent_ok fs "confidence_assessment"
          (fun v => ["\nCONFIDENCE ASSESSMENT:", pyToStr v])
        unfold display_geological_results
        cases hs : lookupField fs "summary" with
        | none =>
            cases hr : lookupField fs "rocks" with
            | none =>
                simp [htr, pyContainsKey, hs, hr, hi1, hi2, bind, Except.bind,
                  pure, Except.pure]
            | some rv =>
                rw [hr] at hrocks
                cases rv with
                | str s2 => simp at hrocks
                | num n2 => simp at hrocks
                | obj fs2 => simp at hrocks
                | arr rocks =>
                    obtain ⟨ws, hws⟩ := displayRocksGeoLoop_ok rocks 1 hrocks
                    simp [htr, pyContainsKey, hs, hr, pySubscript, pyLen, pyIter,
                      hws, hi1, hi2, bind, Except.bind, pure, Except.pure]
        | some sv =>
            rw [hs] at hsum
            cases sv with
            | str s2 => simp at hsum
            | num n2 => simp at hsum
            | arr es2 => simp at hsum
            | obj sfs =>
                obtain ⟨e1, he1⟩ := guardedPlainLine_ok sfs "economic_geology_notes"
                  "\nECONOMIC GEOLOGY: "
                obtain ⟨e2, he2⟩ := guardedIterBlock_ok sfs "recommended_analyses"
                  "\nRECOMMENDED ANALYSES:" "  • " hsum
                cases hr : lookupField fs "rocks" with
                | none =>
                    simp [htr, pyContainsKey, hs, hr, pySubscript, pyDictGet,
                      he1, he2, hi1, hi2, bind, Except.bind, pure, Except.pure]
                | some rv =>
                    rw [hr] at hrocks
                    cases rv with
                    | str s2 => simp at hrocks
                    | num n2 => simp at hrocks
                    | obj fs2 => simp at hrocks
                    | arr rocks =>
                        obtain ⟨ws, hws⟩ := displayRocksGeoLoop_ok rocks 1 hrocks
                        simp [htr, pyContainsKey, hs, hr, pySubscript, pyDictGet,
                          pyLen, pyIter, he1, he2, hws, hi1, hi2,
                          bind, Except.bind, pure, Except.pure]
  · simp only [Bool.not_eq_true] at htr
    refine ⟨["No results to display"], ?_⟩
    unfold display_geological_results
    simp only [htr]
    rfl

/-- C9 (amended). The reporters are pure functions of the result (no mutation
in this embedding). For every dict-shaped result whose present fields carry
renderable types — numbers where a numeric format spec is applied, sliceable
values where `[:n]` is applied, hashable size categories, iterable
recommendation lists — the reporter terminates without raising, and it renders
missing fields with their explicit defaults (`0`, `Unknown`, `None`, `N/A`),
as witnessed on a result with an empty summary and empty rock list. The
original unrestricted claim is false: a present field of the wrong type makes
the reporter raise. -/
theorem claim_C9_amended (r : Value) (title : String) :
    (wellShapedQuickResult r = true → ∃ out, display_results r title = Except.ok out)
    ∧ (wellShapedGeoResult r = true →
        ∃ out, display_geological_results r = Except.ok out)
    ∧ (∃ out, display_results (Value.obj [("summary", Value.obj []),
          ("rocks", Value.arr [])]) "ROCK ANALYSIS RESULTS" = Except.ok out
        ∧ "Total rocks: 0" ∈ out ∧ "Dominant type: Unknown" ∈ out
        ∧ "Average confidence: 0.00" ∈ out ∧ "Location context: None" ∈ out) := by
  refine ⟨fun h => display_results_ok r title h,
    fun h => display_geological_results_ok r h, ⟨_, rfl, ?_, ?_, ?_, ?_⟩⟩
  · decide
  · decide
  · decide
  · decide

/-- C9 is false as stated: the dict-shaped result `{"rocks": 0}` makes the
quick reporter raise (`len(result['rocks'])` is a `TypeError` on an int)
instead of rendering placeholders. -/
theorem claim_C9_counterexample :
    display_results (Value.obj [("rocks", Value.num 0)]) "ROCK ANALYSIS RESULTS"
      = Except.error () := rfl

/-- C9 witness: concrete well-shaped results for both reporters. -/
theorem claim_C9_witness :
    wellShapedQuickResult (Value.obj [("summary", Value.obj [("total_rocks", Value.num 3)])]) = true
    ∧ (∃ out, display_results
        (Value.obj [("summary", Value.obj [("total_rocks", Value.num 3)])]) "T"
        = Except.ok out)
    ∧ wellShapedGeoResult (Value.obj [("rocks", Value.arr [Value.obj []])]) = true
    ∧ (∃ out, display_geological_results
        (Value.obj [("rocks", Value.arr [Value.obj []])]) = Except.ok out) :=
  ⟨by decide,
   (claim_C9_amended (Value.obj [("summary", Value.obj [("total_rocks", Value.num 3)])]) "T").1
     (by decide),
   by decide,
   (claim_C9_amended (Value.obj [("rocks", Value.arr [Value.obj []])]) "T").2.1 (by decide)⟩

theorem allWs_append (a b : List Char) (ha : allWs a = true) (hb : allWs b = true) :
    allWs (a ++ b) = true := by
  simp only [allWs, List.all_append, Bool.and_eq_true]
  exact ⟨ha, hb⟩

theorem allWs_replicate_space (n : Nat) : allWs (List.replicate n ' ') = true := by
  induction n with
  | zero => rfl
  | succ m ih =>
      simp only [List.replicate_succ, allWs, List.all_cons, Bool.and_eq_true]
      exact ⟨by decide, ih⟩

theorem skipWs_append_allWs (a l : List Char) (ha : allWs a = true) :
    skipWs (a ++ l) = skipWs l := by
  induction a with
  | nil => rfl
  | cons c cs ih =>
      simp only [allWs, List.all_cons, Bool.and_eq_true] at ha
      simp only [List.cons_append, skipWs, ha.1, if_true]
      exact ih ha.2

theorem skipWs_cons_nonws (c : Char) (l : List Char) (hc : isWsChar c = false) :
    skipWs (c :: l) = c :: l := by
  simp [skipWs, hc]

theorem skipWs_skipWs (l : List Char) : skipWs (skipWs l) = skipWs l := by
  induction l with
  | nil => rfl
  | cons c cs ih =>
      by_cases hc : isWsChar c = true
      · simp [skipWs, hc, ih]
      · simp only [Bool.not_eq_true] at hc
        simp [skipWs, hc]

theorem beq_false_of_pred (p : Char → Bool) (c t : Char)
    (hc : p c = true) (ht : p t = false) : (c == t) = false := by
  cases hb : c == t with
  | false => rfl
  | true =>
      rw [eq_of_beq hb] at hc
      rw [hc] at ht
      exact absurd ht (by simp)

theorem isWsChar_false_of_digit (c : Char) (hc : isDigitChar c = true) :
    isWsChar c = false := by
  unfold isWsChar
  rw [beq_false_of_pred isDigitChar c ' ' hc (by decide),
    beq_false_of_pred isDigitChar c '\n' hc (by decide),
    beq_false_of_pred isDigitChar c '\t' hc (by decide),
    beq_false_of_pred isDigitChar c '\r' hc (by decide)]
  rfl

theorem isDigitChar_false_of_ws (c : Char) (hc : isWsChar c = true) :
    isDigitChar c = false := by
  unfold isWsChar at hc
  rcases Bool.or_eq_true _ _ |>.mp hc with h | h
  · rcases Bool.or_eq_true _ _ |>.mp h with h2 | h2
    · rcases Bool.or_eq_true _ _ |>.mp h2 with h3 | h3
      · rw [eq_of_beq h3]; decide
      · rw [eq_of_beq h3]; decide
    · rw [eq_of_beq h2]; decide
  · rw [eq_of_beq h]; decide

theorem headNonDigit_allWs_append (a l : List Char) (c : Char)
    (ha : allWs a = true) (hc : isDigitChar c = false) :
    headNonDigit (a ++ c :: l) = true := by
  cases a with
  | nil => simp [headNonDigit, hc]
  | cons d ds =>
      simp only [allWs, List.all_cons, Bool.and_eq_true] at ha
      simp [headNonDigit, isDigitChar_false_of_ws d ha.1]

theorem takeStringChars_append (s rest : List Char)
    (hs : ∀ c ∈ s, (c == '"') = false) :
    takeStringChars (s ++ '"' :: rest) = some (s, rest) := by
  induction s with
  | nil => simp [takeStringChars]
  | cons c cs ih =>
      have hc := hs c (by simp)
      simp only [List.cons_append, takeStringChars, hc, Bool.false_eq_true, if_false,
        List.append_eq]
      rw [ih (fun d hd => hs d (by simp [hd]))]

theorem takeDigits_append (ds rest : List Char)
    (hds : ∀ c ∈ ds, isDigitChar c = true) (hrest : headNonDigit rest = true) :
    takeDigits (ds ++ rest) = (ds, rest) := by
  induction ds with
  | nil =>
      cases rest with
      | nil => rfl
      | cons c cs =>
          simp only [headNonDigit, Bool.not_eq_true'] at hrest
          simp [takeDigits, hrest]
  | cons c cs ih =>
      have hc := hds c (by simp)
      simp only [List.cons_append, takeDigits, hc, if_true, List.append_eq]
      rw [ih (fun d hd => hds d (by simp [hd]))]

theorem plainString_no_quote (s : String) (h : plainString s = true) :
    ∀ c ∈ s.data, (c == '"') = false := by
  intro c hc
  have := List.all_eq_true.mp h c hc
  simp only [plainChar, Bool.and_eq_true, Bool.not_eq_true'] at this
  exact this.1.2

theorem digit_char_toNat (d : Nat) (hd : d < 10) :
    (Char.ofNat (48 + d)).toNat = 48 + d := by
  interval_cases d <;> decide

theorem isDigitChar_digit_char (d : Nat) (hd : d < 10) :
    isDigitChar (Char.ofNat (48 + d)) = true := by
  interval_cases d <;> decide

theorem natCharsRec_all_digits (n : Nat) :
    ∀ c ∈ natCharsRec n, isDigitChar c = true := by
  intro c hc
  unfold natCharsRec at hc
  rw [List.mem_reverse] at hc
  obtain ⟨d, hd, rfl⟩ := List.mem_map.mp hc
  exact isDigitChar_digit_char d (Nat.digits_lt_base (by norm_num) hd)

theorem natChars_all_digits (n : Nat) : ∀ c ∈ natChars n, isDigitChar c = true := by
  intro c hc
  unfold natChars at hc
  by_cases h : n = 0
  · simp [h] at hc
    rw [hc]
    decide
  · simp only [h, if_false] at hc
    exact natCharsRec_all_digits n c hc

theorem natChars_ne_nil (n : Nat) : natChars n ≠ [] := by
  unfold natChars
  by_cases h : n = 0
  · simp [h]
  · simp only [h, if_false]
    unfold natCharsRec
    simp only [ne_eq, List.reverse_eq_nil_iff, List.map_eq_nil_iff]
    exact Nat.digits_ne_nil_iff_ne_zero.mpr h

theorem digitsToNat_append_digit (xs : List Char) (c : Char) :
    digitsToNat (xs ++ [c]) = digitsToNat xs * 10 + (c.toNat - 48) := by
  unfold digitsToNat
  rw [List.foldl_append]
  rfl

theorem digitsToNat_natCharsRec (n : Nat) : digitsToNat (natCharsRec n) = n := by
  induction n using Nat.strong_induction_on with
  | _ n ih =>
      rcases Nat.eq_zero_or_pos n with h0 | hpos
      · subst h0
        simp [natCharsRec, digitsToNat]
      · unfold natCharsRec
        rw [Nat.digits_def' (by norm_num : 1 < 10) hpos]
        simp only [List.map_cons, List.reverse_cons]
        rw [digitsToNat_append_digit]
        have hrec : digitsToNat (natCharsRec (n / 10)) = n / 10 :=
          ih (n / 10) (Nat.div_lt_self hpos (by norm_num))
        unfold natCharsRec at hrec
        rw [hrec, digit_char_toNat (n % 10) (Nat.mod_lt n (by norm_num))]
        omega

theorem digitsToNat_natChars (n : Nat) : digitsToNat (natChars n) = n := by
  unfold natChars
  by_cases h : n = 0
  · subst h; rfl
  · simp only [h, if_false]
    exact digitsToNat_natCharsRec n

/-- Every rendering starts with a non-whitespace character that is neither a
closing bracket nor a closing brace. -/
theorem render_data_head (v : Value) (ind : Nat) :
    ∃ c t, (render v ind).data = c :: t ∧ isWsChar c = false
      ∧ (c == ']') = false ∧ (c == '\x7d') = false := by
  cases v with
  | str s =>
      refine ⟨'"', s.data ++ ['"'], ?_, by decide, by decide, by decide⟩
      cases s
      rfl
  | num n =>
      cases n with
      | ofNat m =>
          cases hm : natChars m with
          | nil => exact absurd hm (natChars_ne_nil m)
          | cons c t =>
              have hc : isDigitChar c = true :=
                natChars_all_digits m c (by rw [hm]; simp)
              refine ⟨c, t, ?_, isWsChar_false_of_digit c hc,
                beq_false_of_pred isDigitChar c ']' hc (by decide),
                beq_false_of_pred isDigitChar c '\x7d' hc (by decide)⟩
              show (String.mk (natChars m)).data = c :: t
              rw [hm]
      | negSucc m =>
          exact ⟨'-', natChars (m + 1), rfl, by decide, by decide, by decide⟩
  | arr es =>
      cases es with
      | nil => exact ⟨'[', [']'], rfl, by decide, by decide, by decide⟩
      | cons x xs =>
          refine ⟨'[', '\n' :: ((renderElems (x :: xs) (ind + 2)
            ++ "\n" ++ spaces ind ++ "]") : String).data, ?_,
            by decide, by decide, by decide⟩
          show (("[\n" ++ renderElems (x :: xs) (ind + 2) ++ "\n" ++ spaces ind
            ++ "]") : String).data = _
          rw [string_data_append, string_data_append, string_data_append,
            string_data_append, string_data_append, string_data_append]
          rfl
  | obj fs =>
      cases fs with
      | nil => exact ⟨'\x7b', ['\x7d'], rfl, by decide, by decide, by decide⟩
      | cons f fs' =>
          refine ⟨'\x7b', '\n' :: ((renderFields (f :: fs') (ind + 2)
            ++ "\n" ++ spaces ind ++ "\x7d") : String).data, ?_,
            by decide, by decide, by decide⟩
          show (("\x7b\n" ++ renderFields (f :: fs') (ind + 2) ++ "\n" ++ spaces ind
            ++ "\x7d") : String).data = _
          rw [string_data_append, string_data_append, string_data_append,
            string_data_append, string_data_append, string_data_append]
          rfl

theorem headNonDigit_cons (c : Char) (l : List Char) (h : isDigitChar c = false) :
    headNonDigit (c :: l) = true := by
  simp [headNonDigit, h]

theorem parseValue_skipWs (fuel : Nat) (l : List Char) :
    parseValue fuel (skipWs l) = parseValue fuel l := by
  cases fuel with
  | zero => rfl
  | succ f => simp only [parseValue, skipWs_skipWs]

theorem parseElems_skipWs (fuel : Nat) (l : List Char) :
    parseElems fuel (skipWs l) = parseElems fuel l := by
  cases fuel with
  | zero => rfl
  | succ f => simp only [parseElems, parseValue_skipWs]

theorem parseFields_skipWs (fuel : Nat) (l : List Char) :
    parseFields fuel (skipWs l) = parseFields fuel l := by
  cases fuel with
  | zero => rfl
  | succ f => simp only [parseFields, skipWs_skipWs]

theorem renderElems_data_decomp (x : Value) (xs : List Value) (ind : Nat) :
    ∃ t2, (renderElems (x :: xs) ind).data
      = (spaces ind).data ++ ((render x ind).data ++ t2) := by
  cases xs with
  | nil =>
      refine ⟨[], ?_⟩
      simp [renderElems, string_data_append]
  | cons y ys =>
      refine ⟨',' :: '\n' :: (renderElems (y :: ys) ind).data, ?_⟩
      show ((spaces ind ++ render x ind ++ ",\n" ++ renderElems (y :: ys) ind) : String).data = _
      simp [string_data_append, List.append_assoc]

theorem renderFields_data_decomp (k : String) (v : Value)
    (fs : List (String × Value)) (ind : Nat) :
    ∃ t2, (renderFields ((k, v) :: fs) ind).data
      = (spaces ind).data ++ ('"' :: (k.data ++ ('"' :: ':' :: ' ' ::
          ((render v ind).data ++ t2)))) := by
  cases fs with
  | nil =>
      refine ⟨[], ?_⟩
      show ((spaces ind ++ "\"" ++ k ++ "\": " ++ render v ind) : String).data = _
      simp [string_data_append, List.append_assoc]
  | cons f fs' =>
      refine ⟨',' :: '\n' :: (renderFields (f :: fs') ind).data, ?_⟩
      show ((spaces ind ++ "\"" ++ k ++ "\": " ++ render v ind ++ ",\n"
        ++ renderFields (f :: fs') ind) : String).data = _
      simp [string_data_append, List.append_assoc]

/-- Printer–parser inverse, by induction on the parsing fuel: a rendered good
value (with any leading whitespace and a non-digit-leading remainder) parses
back to itself; rendered element and field lists likewise, up to their closing
bracket. -/
theorem parse_render (fuel : Nat) :
    (∀ v ind ws rest, vsize v ≤ fuel → goodValue v = true → allWs ws = true →
      headNonDigit rest = true →
      parseValue fuel (ws ++ ((render v ind).data ++ rest)) = some (v, rest))
    ∧ (∀ es ind ws tail rest, esize es ≤ fuel → goodElems es = true → es ≠ [] →
      allWs ws = true → allWs tail = true →
      parseElems fuel (ws ++ ((renderElems es ind).data ++ (tail ++ (']' :: rest))))
        = some (es, rest))
    ∧ (∀ fs ind ws tail rest, fsize fs ≤ fuel → goodFields fs = true → fs ≠ [] →
      allWs ws = true → allWs tail = true →
      parseFields fuel (ws ++ ((renderFields fs ind).data ++ (tail ++ ('\x7d' :: rest))))
        = some (fs, rest)) := by
  induction fuel with
  | zero =>
      refine ⟨?_, ?_, ?_⟩
      · intro v ind ws rest hsz hg hws hrest
        cases v <;> simp [vsize] at hsz
      · intro es ind ws tail rest hsz hg hne hws htail
        cases es with
        | nil => exact absurd rfl hne
        | cons x xs =>
            simp [esize] at hsz
      · intro fs ind ws tail rest hsz hg hne hws htail
        cases fs with
        | nil => exact absurd rfl hne
        | cons f fs' =>
            obtain ⟨k, v⟩ := f
            simp [fsize] at hsz
  | succ f ih =>
      obtain ⟨ihv, ihe, ihf⟩ := ih
      refine ⟨?_, ?_, ?_⟩
      · -- parseValue
        intro v ind ws rest hsz hg hws hrest
        cases v with
        | str s =>
            cases s with
            | mk d =>
                rw [show (render (Value.str ⟨d⟩) ind).data ++ rest
                  = '"' :: (d ++ '"' :: rest) by simp [render, string_data_append]]
                simp only [parseValue]
                rw [skipWs_append_allWs _ _ hws, skipWs_cons_nonws _ _ (by decide)]
                simp only [show (('"' : Char) == '"') = true by decide, if_true]
                rw [takeStringChars_append d rest (plainString_no_quote ⟨d⟩ hg)]
        | num n =>
            cases n with
            | ofNat m =>
                cases hm : natChars m with
                | nil => exact absurd hm (natChars_ne_nil m)
                | cons c t =>
                    have hall : ∀ x ∈ c :: t, isDigitChar x = true := by
                      rw [← hm]; exact natChars_all_digits m
                    have hc : isDigitChar c = true := hall c (by simp)
                    rw [show (render (Value.num (Int.ofNat m)) ind).data ++ rest
                      = c :: (t ++ rest) by
                        show (String.mk (natChars m)).data ++ rest = _
                        rw [hm]; rfl]
                    simp only [parseValue]
                    rw [skipWs_append_allWs _ _ hws,
                      skipWs_cons_nonws _ _ (isWsChar_false_of_digit c hc)]
                    have htd : takeDigits (c :: (t ++ rest)) = (c :: t, rest) := by
                      have := takeDigits_append (c :: t) rest hall hrest
                      simpa using this
                    simp only [beq_false_of_pred isDigitChar c '"' hc (by decide),
                      beq_false_of_pred isDigitChar c '[' hc (by decide),
                      beq_false_of_pred isDigitChar c '\x7b' hc (by decide),
                      beq_false_of_pred isDigitChar c '-' hc (by decide),
                      Bool.false_eq_true, if_false, hc, if_true, htd,
                      show digitsToNat (c :: t) = m by
                        rw [← hm]; exact digitsToNat_natChars m]
            | negSucc m =>
                cases hm : natChars (m + 1) with
                | nil => exact absurd hm (natChars_ne_nil (m + 1))
                | cons c t =>
                    have hall : ∀ x ∈ c :: t, isDigitChar x = true := by
                      rw [← hm]; exact natChars_all_digits (m + 1)
                    rw [show (render (Value.num (Int.negSucc m)) ind).data ++ rest
                      = '-' :: (natChars (m + 1) ++ rest) from rfl]
                    simp only [parseValue]
                    rw [skipWs_append_allWs _ _ hws, skipWs_cons_nonws _ _ (by decide)]
                    simp only [show (('-' : Char) == '"') = false by decide,
                      show (('-' : Char) == '[') = false by decide,
                      show (('-' : Char) == '\x7b') = false by decide,
                      show (('-' : Char) == '-') = true by decide,
                      Bool.false_eq_true, if_false, if_true]
                    rw [hm]
                    simp only [takeDigits_append (c :: t) rest hall hrest,
                      show digitsToNat (c :: t) = m + 1 by
                        rw [← hm]; exact digitsToNat_natChars (m + 1)]
                    rfl
        | arr es =>
            cases es with
            | nil =>
                rw [show (render (Value.arr []) ind).data ++ rest
                  = '[' :: (']' :: rest) from rfl]
                simp only [parseValue]
                rw [skipWs_append_allWs _ _ hws, skipWs_cons_nonws _ _ (by decide)]
                simp only [show (('[' : Char) == '"') = false by decide,
                  show (('[' : Char) == '[') = true by decide,
                  Bool.false_eq_true, if_false, if_true]
                rw [skipWs_cons_nonws _ _ (by decide)]
                simp only [show ((']' : Char) == ']') = true by decide, if_true]
            | cons x xs =>
                have hsz' : esize (x :: xs) ≤ f := by
                  simp only [vsize] at hsz
                  omega
                have hg' : goodElems (x :: xs) = true := by
                  simpa [goodValue] using hg
                obtain ⟨t2, hE⟩ := renderElems_data_decomp x xs (ind + 2)
                obtain ⟨c, t, hx, hxws, hx1, hx2⟩ := render_data_head x (ind + 2)
                have hdata : (render (Value.arr (x :: xs)) ind).data ++ rest
                    = '[' :: ('\n' :: ((renderElems (x :: xs) (ind + 2)).data
                        ++ (('\n' :: (spaces ind).data) ++ (']' :: rest)))) := by
                  show (("[\n" ++ renderElems (x :: xs) (ind + 2) ++ "\n"
                    ++ spaces ind ++ "]") : String).data ++ rest = _
                  simp [string_data_append, List.append_assoc]
                rw [hdata]
                simp only [parseValue]
                rw [skipWs_append_allWs _ _ hws, skipWs_cons_nonws _ _ (by decide)]
                simp only [show (('[' : Char) == '"') = false by decide,
                  show (('[' : Char) == '[') = true by decide,
                  Bool.false_eq_true, if_false, if_true]
                have hscrut : skipWs ('\n' :: ((renderElems (x :: xs) (ind + 2)).data
                    ++ (('\n' :: (spaces ind).data) ++ (']' :: rest))))
                    = c :: ((t ++ t2) ++ (('\n' :: (spaces ind).data) ++ (']' :: rest))) := by
                  rw [hE, hx]
                  rw [show ('\n' :: (((spaces (ind + 2)).data ++ ((c :: t) ++ t2))
                      ++ (('\n' :: (spaces ind).data) ++ (']' :: rest))))
                    = ('\n' :: (spaces (ind + 2)).data)
                      ++ (c :: ((t ++ t2) ++ (('\n' :: (spaces ind).data) ++ (']' :: rest))))
                    by simp [List.append_assoc]]
                  rw [skipWs_append_allWs _ _ (by
                    simp only [allWs, List.all_cons, Bool.and_eq_true]
                    exact ⟨by decide, allWs_replicate_space (ind + 2)⟩)]
                  exact skipWs_cons_nonws _ _ hxws
                rw [hscrut]
                simp only [hx1, Bool.false_eq_true, if_false]
                have hundo : parseElems f (c :: ((t ++ t2)
                    ++ (('\n' :: (spaces ind).data) ++ (']' :: rest))))
                    = some (x :: xs, rest) := by
                  rw [← hscrut, parseElems_skipWs]
                  have := ihe (x :: xs) (ind + 2) ['\n'] ('\n' :: (spaces ind).data) rest
                    hsz' hg' (by simp) (by decide)
                    (by
                      simp only [allWs, List.all_cons, Bool.and_eq_true]
                      exact ⟨by decide, allWs_replicate_space ind⟩)
                  simpa [List.append_assoc] using this
                rw [hundo]
        | obj fs =>
            cases fs with
            | nil =>
                rw [show (render (Value.obj []) ind).data ++ rest
                  = '\x7b' :: ('\x7d' :: rest) from rfl]
                simp only [parseValue]
                rw [skipWs_append_allWs _ _ hws, skipWs_cons_nonws _ _ (by decide)]
                simp only [show (('\x7b' : Char) == '"') = false by decide,
                  show (('\x7b' : Char) == '[') = false by decide,
                  show (('\x7b' : Char) == '\x7b') = true by decide,
                  Bool.false_eq_true, if_false, if_true]
                rw [skipWs_cons_nonws _ _ (by decide)]
                simp only [show (('\x7d' : Char) == '\x7d') = true by decide, if_true]
            | cons f0 fs' =>
                obtain ⟨k, v0⟩ := f0
                have hsz' : fsize ((k, v0) :: fs') ≤ f := by
                  simp only [vsize] at hsz
                  omega
                have hg' : goodFields ((k, v0) :: fs') = true := by
                  simpa [goodValue] using hg
                obtain ⟨t2, hF⟩ := renderFields_data_decomp k v0 fs' (ind + 2)
                have hdata : (render (Value.obj ((k, v0) :: fs')) ind).data ++ rest
                    = '\x7b' :: ('\n' :: ((renderFields ((k, v0) :: fs') (ind + 2)).data
                        ++ (('\n' :: (spaces ind).data) ++ ('\x7d' :: rest)))) := by
                  show (("\x7b\n" ++ renderFields ((k, v0) :: fs') (ind + 2) ++ "\n"
                    ++ spaces ind ++ "\x7d") : String).data ++ rest = _
                  simp [string_data_append, List.append_assoc]
                rw [hdata]
                simp only [parseValue]
                rw [skipWs_append_allWs _ _ hws, skipWs_cons_nonws _ _ (by decide)]
                simp only [show (('\x7b' : Char) == '"') = false by decide,
                  show (('\x7b' : Char) == '[') = false by decide,
                  show (('\x7b' : Char) == '\x7b') = true by decide,
                  Bool.false_eq_true, if_false, if_true]
                have hscrut : skipWs ('\n' :: ((renderFields ((k, v0) :: fs') (ind + 2)).data
                    ++ (('\n' :: (spaces ind).data) ++ ('\x7d' :: rest))))
                    = '"' :: ((k.data ++ ('"' :: ':' :: ' ' :: ((render v0 (ind + 2)).data ++ t2)))
                        ++ (('\n' :: (spaces ind).data) ++ ('\x7d' :: rest))) := by
                  rw [hF]
                  rw [show ('\n' :: (((spaces (ind + 2)).data
                        ++ ('"' :: (k.data ++ ('"' :: ':' :: ' ' :: ((render v0 (ind + 2)).data ++ t2)))))
                      ++ (('\n' :: (spaces ind).data) ++ ('\x7d' :: rest))))
                    = ('\n' :: (spaces (ind + 2)).data)
                      ++ ('"' :: ((k.data ++ ('"' :: ':' :: ' ' :: ((render v0 (ind + 2)).data ++ t2)))
                        ++ (('\n' :: (spaces ind).data) ++ ('\x7d' :: rest))))
                    by simp [List.append_assoc]]
                  rw [skipWs_append_allWs _ _ (by
                    simp only [allWs, List.all_cons, Bool.and_eq_true]
                    exact ⟨by decide, allWs_replicate_space (ind + 2)⟩)]
                  exact skipWs_cons_nonws _ _ (by decide)
                rw [hscrut]
                simp only [show (('"' : Char) == '\x7d') = false by decide,
                  Bool.false_eq_true, if_false]
                have hundo : parseFields f ('"' :: ((k.data
                    ++ ('"' :: ':' :: ' ' :: ((render v0 (ind + 2)).data ++ t2)))
                    ++ (('\n' :: (spaces ind).data) ++ ('\x7d' :: rest))))
                    = some ((k, v0) :: fs', rest) := by
                  rw [← hscrut, parseFields_skipWs]
                  have := ihf ((k, v0) :: fs') (ind + 2) ['\n'] ('\n' :: (spaces ind).data) rest
                    hsz' hg' (by simp) (by decide)
                    (by
                      simp only [allWs, List.all_cons, Bool.and_eq_true]
                      exact ⟨by decide, allWs_replicate_space ind⟩)
                  simpa [List.append_assoc] using this
                rw [hundo]
      · -- parseElems
        intro es ind ws tail rest hsz hg hne hws htail
        cases es with
        | nil => exact absurd rfl hne
        | cons x xs =>
            have hgx : goodValue x = true ∧ goodElems xs = true := by
              simpa [goodElems, Bool.and_eq_true] using hg
            cases xs with
            | nil =>
                have hszx : vsize x ≤ f := by
                  simp only [esize] at hsz
                  omega
                simp only [parseElems]
                have h1 : parseValue f (ws ++ ((renderElems [x] ind).data
                    ++ (tail ++ (']' :: rest)))) = some (x, tail ++ (']' :: rest)) := by
                  have hrd : (renderElems [x] ind).data
                      = (spaces ind).data ++ (render x ind).data := by
                    simp [renderElems, string_data_append]
                  rw [hrd]
                  have := ihv x ind (ws ++ (spaces ind).data) (tail ++ (']' :: rest))
                    hszx hgx.1 (allWs_append _ _ hws (allWs_replicate_space ind))
                    (headNonDigit_allWs_append tail rest ']' htail (by decide))
                  simpa [List.append_assoc] using this
                simp only [h1, skipWs_append_allWs _ _ htail,
                  skipWs_cons_nonws ']' _ (by decide),
                  show ((']' : Char) == ',') = false by decide,
                  show ((']' : Char) == ']') = true by decide,
                  Bool.false_eq_true, if_false, if_true]
            | cons y ys =>
                have hszx : vsize x ≤ f ∧ esize (y :: ys) ≤ f := by
                  simp only [esize] at hsz ⊢
                  omega
                simp only [parseElems]
                have h1 : parseValue f (ws ++ ((renderElems (x :: y :: ys) ind).data
                    ++ (tail ++ (']' :: rest))))
                    = some (x, ',' :: '\n' :: ((renderElems (y :: ys) ind).data
                        ++ (tail ++ (']' :: rest)))) := by
                  have hrd : (renderElems (x :: y :: ys) ind).data
                      = (spaces ind).data ++ ((render x ind).data
                        ++ (',' :: '\n' :: (renderElems (y :: ys) ind).data)) := by
                    show ((spaces ind ++ render x ind ++ ",\n"
                      ++ renderElems (y :: ys) ind) : String).data = _
                    simp [string_data_append, List.append_assoc]
                  rw [hrd]
                  have := ihv x ind (ws ++ (spaces ind).data)
                    (',' :: '\n' :: ((renderElems (y :: ys) ind).data
                      ++ (tail ++ (']' :: rest))))
                    hszx.1 hgx.1 (allWs_append _ _ hws (allWs_replicate_space ind))
                    (headNonDigit_cons ',' _ (by decide))
                  simpa [List.append_assoc] using this
                have h2 := ihe (y :: ys) ind ['\n'] tail rest hszx.2 hgx.2
                  (by simp) (by decide) htail
                have h2' : parseElems f ('\n' :: ((renderElems (y :: ys) ind).data
                    ++ (tail ++ (']' :: rest)))) = some (y :: ys, rest) := by
                  simpa using h2
                simp only [h1, skipWs_cons_nonws ',' _ (by decide),
                  show ((',' : Char) == ',') = true by decide, if_true, h2']
      · -- parseFields
        intro fs ind ws tail rest hsz hg hne hws htail
        cases fs with
        | nil => exact absurd rfl hne
        | cons f0 fs' =>
            obtain ⟨k, v0⟩ := f0
            have hgx : plainString k = true ∧ goodValue v0 = true
                ∧ goodFields fs' = true := by
              simpa [goodFields, Bool.and_eq_true, and_assoc] using hg
            have hkdata : ∀ rest2, takeStringChars (k.data ++ '"' :: rest2)
                = some (k.data, rest2) :=
              fun rest2 => takeStringChars_append k.data rest2 (plainString_no_quote k hgx.1)
            cases fs' with
            | nil =>
                have hszv : vsize v0 ≤ f := by
                  simp only [fsize] at hsz
                  omega
                have hrd : (renderFields [(k, v0)] ind).data
                    = (spaces ind).data ++ ('"' :: (k.data ++ ('"' :: ':' :: ' ' ::
                        ((render v0 ind).data ++ [])))) := by
                  obtain ⟨t2, h⟩ := renderFields_data_decomp k v0 [] ind
                  -- t2 must be []: instead recompute directly
                  show ((spaces ind ++ "\"" ++ k ++ "\": " ++ render v0 ind) : String).data = _
                  simp [string_data_append, List.append_assoc]
                simp only [parseFields]
                rw [show ws ++ ((renderFields [(k, v0)] ind).data ++ (tail ++ ('\x7d' :: rest)))
                  = (ws ++ (spaces ind).data) ++ ('"' :: ((k.data ++ ('"' :: ':' :: ' ' ::
                      ((render v0 ind).data ++ (tail ++ ('\x7d' :: rest))))))) by
                  rw [hrd]; simp [List.append_assoc]]
                rw [skipWs_append_allWs (ws ++ (spaces ind).data) _
                    (allWs_append _ _ hws (allWs_replicate_space ind)),
                  skipWs_cons_nonws _ _ (by decide)]
                simp only [show (('"' : Char) == '"') = true by decide, if_true]
                rw [show (k.data ++ ('"' :: ':' :: ' ' ::
                    ((render v0 ind).data ++ (tail ++ ('\x7d' :: rest)))))
                  = k.data ++ '"' :: (':' :: ' ' ::
                    ((render v0 ind).data ++ (tail ++ ('\x7d' :: rest)))) from rfl]
                simp only [hkdata, skipWs_cons_nonws ':' _ (by decide),
                  show ((':' : Char) == ':') = true by decide, if_true]
                have h1 : parseValue f (' ' :: ((render v0 ind).data
                    ++ (tail ++ ('\x7d' :: rest)))) = some (v0, tail ++ ('\x7d' :: rest)) := by
                  have := ihv v0 ind [' '] (tail ++ ('\x7d' :: rest)) hszv hgx.2.1
                    (by decide) (headNonDigit_allWs_append tail rest '\x7d' htail (by decide))
                  simpa using this
                simp only [h1, skipWs_append_allWs _ _ htail,
                  skipWs_cons_nonws '\x7d' _ (by decide),
                  show (('\x7d' : Char) == ',') = false by decide,
                  show (('\x7d' : Char) == '\x7d') = true by decide,
                  Bool.false_eq_true, if_false, if_true]
            | cons f1 fs'' =>
                have hszv : vsize v0 ≤ f ∧ fsize (f1 :: fs'') ≤ f := by
                  simp only [fsize] at hsz ⊢
                  omega
                have hrd : (renderFields ((k, v0) :: f1 :: fs'') ind).data
                    = (spaces ind).data ++ ('"' :: (k.data ++ ('"' :: ':' :: ' ' ::
                        ((render v0 ind).data
                          ++ (',' :: '\n' :: (renderFields (f1 :: fs'') ind).data))))) := by
                  show ((spaces ind ++ "\"" ++ k ++ "\": " ++ render v0 ind ++ ",\n"
                    ++ renderFields (f1 :: fs'') ind) : String).data = _
                  simp [string_data_append, List.append_assoc]
                simp only [parseFields]
                rw [show ws ++ ((renderFields ((k, v0) :: f1 :: fs'') ind).data
                    ++ (tail ++ ('\x7d' :: rest)))
                  = (ws ++ (spaces ind).data) ++ ('"' :: ((k.data ++ ('"' :: ':' :: ' ' ::
                      ((render v0 ind).data ++ (',' :: '\n' :: ((renderFields (f1 :: fs'') ind).data
                        ++ (tail ++ ('\x7d' :: rest))))))))) by
                  rw [hrd]; simp [List.append_assoc]]
                rw [skipWs_append_allWs (ws ++ (spaces ind).data) _
                    (allWs_append _ _ hws (allWs_replicate_space ind)),
                  skipWs_cons_nonws _ _ (by decide)]
                simp only [show (('"' : Char) == '"') = true by decide, if_true]
                rw [show (k.data ++ ('"' :: ':' :: ' ' ::
                    ((render v0 ind).data ++ (',' :: '\n' :: ((renderFields (f1 :: fs'') ind).data
                      ++ (tail ++ ('\x7d' :: rest)))))))
                  = k.data ++ '"' :: (':' :: ' ' ::
                    ((render v0 ind).data ++ (',' :: '\n' :: ((renderFields (f1 :: fs'') ind).data
                      ++ (tail ++ ('\x7d' :: rest)))))) from rfl]
                simp only [hkdata, skipWs_cons_nonws ':' _ (by decide),
                  show ((':' : Char) == ':') = true by decide, if_true]
                have h1 : parseValue f (' ' :: ((render v0 ind).data
                    ++ (',' :: '\n' :: ((renderFields (f1 :: fs'') ind).data
                      ++ (tail ++ ('\x7d' :: rest))))))
                    = some (v0, ',' :: '\n' :: ((renderFields (f1 :: fs'') ind).data
                        ++ (tail ++ ('\x7d' :: rest)))) := by
                  have := ihv v0 ind [' ']
                    (',' :: '\n' :: ((renderFields (f1 :: fs'') ind).data
                      ++ (tail ++ ('\x7d' :: rest))))
                    hszv.1 hgx.2.1 (by decide) (headNonDigit_cons ',' _ (by decide))
                  simpa using this
                have h2 := ihf (f1 :: fs'') ind ['\n'] tail rest hszv.2 hgx.2.2
                  (by simp) (by decide) htail
                have h2' : parseFields f ('\n' :: ((renderFields (f1 :: fs'') ind).data
                    ++ (tail ++ ('\x7d' :: rest)))) = some (f1 :: fs'', rest) := by
                  simpa using h2
                simp only [h1, skipWs_cons_nonws ',' _ (by decide),
                  show ((',' : Char) == ',') = true by decide, if_true, h2']

theorem render_length_bound (N : Nat) :
    (∀ v ind, vsize v ≤ N → vsize v ≤ (render v ind).data.length)
    ∧ (∀ es ind, 2 ≤ ind → esize es ≤ N → esize es ≤ (renderElems es ind).data.length)
    ∧ (∀ fs ind, 2 ≤ ind → fsize fs ≤ N →
        fsize fs ≤ (renderFields fs ind).data.length) := by
  induction N with
  | zero =>
      refine ⟨?_, ?_, ?_⟩
      · intro v ind hsz
        cases v <;> simp [vsize] at hsz
      · intro es ind _ hsz
        cases es with
        | nil => simp [esize]
        | cons x xs => simp [esize] at hsz
      · intro fs ind _ hsz
        cases fs with
        | nil => simp [fsize]
        | cons f0 fs' =>
            obtain ⟨k, v0⟩ := f0
            simp [fsize] at hsz
  | succ n ih =>
      obtain ⟨ihv, ihe, ihf⟩ := ih
      refine ⟨?_, ?_, ?_⟩
      · intro v ind hsz
        cases v with
        | str s =>
            cases s with
            | mk d => simp [vsize, render, string_data_append]
        | num m =>
            cases m with
            | ofNat m0 =>
                have := List.length_pos.mpr (natChars_ne_nil m0)
                simpa [vsize, render, intChars] using this
            | negSucc m0 =>
                simp [vsize, render, intChars]
        | arr es =>
            cases es with
            | nil => simp [vsize, render, esize]
            | cons x xs =>
                have hsz' : esize (x :: xs) ≤ n := by
                  simp only [vsize] at hsz
                  omega
                have hE := ihe (x :: xs) (ind + 2) (by omega) hsz'
                simp only [vsize, render, string_data_append, List.length_append]
                simp only [spaces, List.length_replicate, List.length_cons,
                  List.length_nil]
                omega
        | obj fs =>
            cases fs with
            | nil => simp [vsize, render, fsize]
            | cons f0 fs' =>
                have hsz' : fsize (f0 :: fs') ≤ n := by
                  simp only [vsize] at hsz
                  omega
                have hF := ihf (f0 :: fs') (ind + 2) (by omega) hsz'
                simp only [vsize, render, string_data_append, List.length_append]
                simp only [spaces, List.length_replicate, List.length_cons,
                  List.length_nil]
                omega
      · intro es ind hind hsz
        cases es with
        | nil => simp [esize]
        | cons x xs =>
            cases xs with
            | nil =>
                have hx := ihv x ind (by simp only [esize] at hsz; omega)
                simp only [esize, renderElems, string_data_append, List.length_append]
                simp only [spaces, List.length_replicate, List.length_cons,
                  List.length_nil]
                omega
            | cons y ys =>
                have hx := ihv x ind (by simp only [esize] at hsz; omega)
                have hrest := ihe (y :: ys) ind hind
                  (by simp only [esize] at hsz ⊢; omega)
                simp only [esize, renderElems, string_data_append, List.length_append]
                simp only [spaces, List.length_replicate, List.length_cons,
                  List.length_nil]
                simp only [esize] at hrest
                omega
      · intro fs ind hind hsz
        cases fs with
        | nil => simp [fsize]
        | cons f0 fs' =>
            obtain ⟨k, v0⟩ := f0
            cases fs' with
            | nil =>
                have hv := ihv v0 ind (by simp only [fsize] at hsz; omega)
                simp only [fsize, renderFields, string_data_append, List.length_append]
                simp only [spaces, List.length_replicate, List.length_cons,
                  List.length_nil]
                omega
            | cons f1 fs'' =>
                have hv := ihv v0 ind (by simp only [fsize] at hsz; omega)
                have hrest := ihf (f1 :: fs'') ind hind
                  (by simp only [fsize] at hsz ⊢; omega)
                simp only [fsize, renderFields, string_data_append, List.length_append]
                simp only [spaces, List.length_replicate, List.length_cons,
                  List.length_nil]
                simp only [fsize] at hrest
                omega

/-- Serializing then parsing a good value gives the value back. -/
theorem loads_dumps (v : Value) (hg : goodValue v = true) : loads (dumps v) = some v := by
  unfold loads dumps
  have hb := (render_length_bound (vsize v)).1 v 0 le_rfl
  have hfuel : vsize v ≤ (render v 0).length + 1 := by
    have hlen : (render v 0).length = (render v 0).data.length := rfl
    omega
  have hp := (parse_render ((render v 0).length + 1)).1 v 0 [] [] hfuel hg rfl rfl
  simp only [List.nil_append, List.append_nil] at hp
  rw [hp]
  rfl

theorem string_append_assoc (a b c : String) : (a ++ b) ++ c = a ++ (b ++ c) := by
  cases a with
  | mk da =>
    cases b with
    | mk db =>
      cases c with
      | mk dc =>
        show String.mk ((da ++ db) ++ dc) = String.mk (da ++ (db ++ dc))
        rw [List.append_assoc]

/-- C7. Persisted results round-trip: serializing a (plain-ASCII, integral)
result object with the modelled `json.dump(..., indent=2)` and re-parsing the
file text yields a deep-equal value; the geological compare mode persists one
file per result object; and the serialization is pretty-printed with 2-space
indentation per nesting level. -/
theorem claim_C7 (v w wo : Value) (base : String)
    (hg : goodValue v = true) (hw : w.pyTruthy = true) (hwo : wo.pyTruthy = true) :
    loads (dumps v) = some v
    ∧ (rockMainCompareFiles (some w) (some wo) true base).map Prod.snd = [w, wo]
    ∧ dumps (Value.obj [("a", Value.arr [Value.num 0])])
        = "\x7b\n  \"a\": [\n    0\n  ]\n\x7d" := by
  refine ⟨loads_dumps v hg, ?_, by decide⟩
  simp [rockMainCompareFiles, hw, hwo]

theorem claim_C7_witness :
    loads (dumps (Value.obj [("summary", Value.obj [("total_rocks", Value.num 2)]),
        ("rocks", Value.arr [Value.str "granite", Value.num 1])]))
      = some (Value.obj [("summary", Value.obj [("total_rocks", Value.num 2)]),
        ("rocks", Value.arr [Value.str "granite", Value.num 1])])
    ∧ (rockMainCompareFiles (some (Value.num 1)) (some (Value.num 2)) true "img").map
        Prod.snd = [Value.num 1, Value.num 2] :=
  ⟨(claim_C7 (Value.obj [("summary", Value.obj [("total_rocks", Value.num 2)]),
        ("rocks", Value.arr [Value.str "granite", Value.num 1])])
      (Value.num 1) (Value.num 2) "img" (by decide) (by decide) (by decide)).1,
   (claim_C7 (Value.obj [("summary", Value.obj [("total_rocks", Value.num 2)]),
        ("rocks", Value.arr [Value.str "granite", Value.num 1])])
      (Value.num 1) (Value.num 2) "img" (by decide) (by decide) (by decide)).2.1⟩

/-- C8. The comparison prompt built by `generate_comparison` contains, as
substrings, the full serialized form of each of the two result objects. -/
theorem claim_C8 (w wo : Value) (location : String) :
    StrContains (dumps w) (generate_comparison_prompt (dumps w) (dumps wo) location)
    ∧ StrContains (dumps wo) (generate_comparison_prompt (dumps w) (dumps wo) location) := by
  constructor
  · refine ⟨cmpSeg0 ++ location ++ cmpSeg1, cmpSeg2 ++ dumps wo ++ cmpSeg3, ?_⟩
    simp only [generate_comparison_prompt, string_append_assoc]
  · refine ⟨cmpSeg0 ++ location ++ cmpSeg1 ++ dumps w ++ cmpSeg2, cmpSeg3, ?_⟩
    simp only [generate_comparison_prompt, string_append_assoc]

end RockPhoto
